import Mathlib

/-! XSBench (pgi_refactor): the lookup kernel of `main`.

A shallow embedding of the body of the lookup loop in `src/pgi_refactor/Main.c`:

* the inlined `pick_mat` (lines 241-276),
* the inlined `calculate_macro_xs` (lines 291-366) with the inlined
  `calculate_micro_xs` (lines 319-350) inside it,
* the accumulation of the verification hash `vhash` (lines 20, 379-393).

Conventions of the embedding.

* A `double` value is the rational it denotes (`ℚ`).  The code is embedded twice.
  The definitions without suffix compute in exact arithmetic; they carry the
  statements made in exact arithmetic and those that no rounding can change.
  The definitions with suffix `_b64` round every operation to binary64
  (`round64`: nearest, ties to even, one rounding for each operation, no fused
  multiply-add); they carry the statements on which material a roll selects, where
  the last bit of a running sum decides, and the example of an interpolated value
  that rounding moves out of its range.
* Division of rationals by zero is `0` in Lean, while C yields an infinity or a
  NaN; every statement that depends on the value of the interpolation factor
  therefore carries an explicit non-zero denominator hypothesis.
* `int` and `long` values are `Int`; none of the index computations of the
  kernel is near the width of its type.  The C operator `%` is `Int.tmod`
  (truncation towards zero).
* `unsigned long long` is a `Nat` reduced modulo `2 ^ 64` after each addition.
* Heap arrays (`restrict` pointers) are total functions from the index to the
  element.  `nuclide_grids` is the flat block behind the C pointer to rows of
  `n_gridpoints` elements: `nuclide_grids[a][b]` is cell `a * n_gridpoints + b`
  and `low + 1` is the next cell.  Statements about indices staying inside the
  rows are separate theorems about the computed index.
* The local arrays `xs_vector[5]` and `macro_xs_vector[5]` are functions
  `Fin 5 → ℚ`.
* `grid_search` lives in another translation unit; it is a parameter of
  `calculate_macro_xs`.  The concrete scenario instantiates it with a bisection
  written from the specification.
-/

namespace XSBench

/-! ## Material selection (INLINE pick_mat) -/

/-- The table `dist[12]` filled at lines 242-253. Cells the code never writes are `0`. -/
def dist : Int → ℚ
  | 0 => 0.140
  | 1 => 0.052
  | 2 => 0.275
  | 3 => 0.134
  | 4 => 0.154
  | 5 => 0.064
  | 6 => 0.066
  | 7 => 0.055
  | 8 => 0.008
  | 9 => 0.015
  | 10 => 0.025
  | 11 => 0.013
  | _ => 0

/-- The inner loop `for (int j = mat; j > 0; j--) running += dist[j];` (lines 270-271),
entered with loop variable `j` and accumulator `running`, the sums taken in exact
arithmetic (`running_loop_b64` rounds them). -/
def running_loop (d : Int → ℚ) (j : Int) (running : ℚ) : ℚ :=
  if 0 < j then running_loop d (j - 1) (running + d j) else running
termination_by j.toNat
decreasing_by omega

/-- The outer loop `for (mat = 0; mat < 12; mat++)` (lines 267-274), entered with
loop variable `mat`; the result is the value of `mat` when the loop is left,
either by `break` or because `mat < 12` fails. -/
def pick_mat_loop (d : Int → ℚ) (roll : ℚ) (mat : Int) : Int :=
  if mat < 12 then
    if roll < running_loop d mat 0 then mat
    else pick_mat_loop d roll (mat + 1)
  else mat
termination_by (12 - mat).toNat
decreasing_by omega

/-- Lines 267-275 over an arbitrary table: the loop from `mat = 0`, then `mat = mat % 12`. -/
def pick_mat_dist (d : Int → ℚ) (roll : ℚ) : Int :=
  Int.tmod (pick_mat_loop d roll 0) 12

/-- The inlined `pick_mat(roll)` of lines 241-276, the running sums taken in exact
arithmetic (`pick_mat_b64` rounds them). -/
def pick_mat (roll : ℚ) : Int :=
  pick_mat_dist dist roll

/-- The running sum `dist[1] + ... + dist[m]` the selection rule is stated with
(`0` for `m = 0`; `dist[0]` is not part of it). -/
def cumulative (d : Int → ℚ) (m : Nat) : ℚ :=
  ∑ j in Finset.Icc 1 m, d (j : Int)

/-! ## Cross-section lookup (INLINE calculate_macro_xs / calculate_micro_xs) -/

/-- One sample of a nuclide grid; the fields are those read at lines 335-350. -/
structure NuclideGridPoint where
  energy : ℚ
  total_xs : ℚ
  elastic_xs : ℚ
  absorbtion_xs : ℚ
  fission_xs : ℚ
  nu_fission_xs : ℚ
deriving DecidableEq

/-- One point of the unionized energy grid; `xs_ptrs` is an offset into `grid_ptrs`
(lines 93 and 327). -/
structure GridPoint where
  energy : ℚ
  xs_ptrs : Int
deriving DecidableEq

/-- The read-only data the lookup loop works on (the `copyin` list of lines 158-168). -/
structure SimulationData where
  n_isotopes : Int
  n_gridpoints : Int
  energy_grid : Int → GridPoint
  grid_ptrs : Int → Int
  nuclide_grids : Int → NuclideGridPoint
  num_nucs : Int → Int
  mats_idx : Int → Int
  mats : Int → Int
  concs : Int → ℚ

/-- The five cross sections of a sample in the order of `xs_vector`
(total, elastic, absorbtion, fission, nu-fission). -/
def NuclideGridPoint.channel (p : NuclideGridPoint) : Fin 5 → ℚ :=
  ![p.total_xs, p.elastic_xs, p.absorbtion_xs, p.fission_xs, p.nu_fission_xs]

/-- The index-table entry read at line 327: `grid_ptrs[energy_grid[idx].xs_ptrs + p_nuc]`. -/
def grid_ptr (D : SimulationData) (idx p_nuc : Int) : Int :=
  D.grid_ptrs ((D.energy_grid idx).xs_ptrs + p_nuc)

/-- The column of row `p_nuc` that `low` points to (lines 327-330): the entry minus one
when the entry is `n_gridpoints - 1`, the entry otherwise. -/
def low_index (n_gridpoints j : Int) : Int :=
  if j = n_gridpoints - 1 then j - 1 else j

/-- The sample `*low` of lines 327-330. -/
def low_point (D : SimulationData) (p_nuc idx : Int) : NuclideGridPoint :=
  D.nuclide_grids (p_nuc * D.n_gridpoints + low_index D.n_gridpoints (grid_ptr D idx p_nuc))

/-- The sample `*high` of line 332, `high = low + 1`. -/
def high_point (D : SimulationData) (p_nuc idx : Int) : NuclideGridPoint :=
  D.nuclide_grids (p_nuc * D.n_gridpoints + low_index D.n_gridpoints (grid_ptr D idx p_nuc) + 1)

/-- The denominator of the division at line 335. -/
def interp_denominator (low high : NuclideGridPoint) : ℚ :=
  high.energy - low.energy

/-- The interpolation factor `f` of line 335, in exact arithmetic. -/
def interp_factor (low high : NuclideGridPoint) (p_energy : ℚ) : ℚ :=
  (high.energy - p_energy) / interp_denominator low high

/-- The five assignments to `xs_vector` at lines 338-350, in exact arithmetic
(`interpolate_b64` rounds every operation). -/
def interpolate (low high : NuclideGridPoint) (p_energy : ℚ) : Fin 5 → ℚ :=
  let f := interp_factor low high p_energy
  ![high.total_xs - f * (high.total_xs - low.total_xs),
    high.elastic_xs - f * (high.elastic_xs - low.elastic_xs),
    high.absorbtion_xs - f * (high.absorbtion_xs - low.absorbtion_xs),
    high.fission_xs - f * (high.fission_xs - low.fission_xs),
    high.nu_fission_xs - f * (high.nu_fission_xs - low.nu_fission_xs)]

/-- The inlined `calculate_micro_xs` (lines 319-363): the content of `xs_vector`
after the block. -/
def calculate_micro_xs (D : SimulationData) (p_energy : ℚ) (p_nuc idx : Int) : Fin 5 → ℚ :=
  interpolate (low_point D p_nuc idx) (high_point D p_nuc idx) p_energy

/-- The loop `for (int k = 0; k < 5; k++) macro_xs_vector[k] = 0;` (lines 298-299). -/
def clear_macro_xs (macro_xs_vector : Fin 5 → ℚ) : Fin 5 → ℚ :=
  (List.finRange 5).foldl (fun v k => Function.update v k 0) macro_xs_vector

/-- The loop `for (int k = 0; k < 5; k++) macro_xs_vector[k] += xs_vector[k] * conc;`
(lines 364-365). -/
def add_micro_xs (macro_xs_vector xs_vector : Fin 5 → ℚ) (conc : ℚ) : Fin 5 → ℚ :=
  (List.finRange 5).foldl (fun v k => Function.update v k (v k + xs_vector k * conc))
    macro_xs_vector

/-- The loop over the nuclides of the material (lines 312-366), entered with loop
variable `j` and the current `macro_xs_vector`. -/
def nuclide_loop (D : SimulationData) (p_energy : ℚ) (mat idx : Int) (j : Int)
    (macro_xs_vector : Fin 5 → ℚ) : Fin 5 → ℚ :=
  if j < D.num_nucs mat then
    let p_nuc := D.mats (D.mats_idx mat + j)
    let conc := D.concs (D.mats_idx mat + j)
    let xs_vector := calculate_micro_xs D p_energy p_nuc idx
    nuclide_loop D p_energy mat idx (j + 1) (add_micro_xs macro_xs_vector xs_vector conc)
  else macro_xs_vector
termination_by (D.num_nucs mat - j).toNat
decreasing_by omega

/-- The inlined `calculate_macro_xs` (lines 291-374): the content of `macro_xs_vector`
after the block, from its content before it. `grid_search` is the binary search
on the unionized grid called at line 302. -/
def calculate_macro_xs (grid_search : Int → ℚ → (Int → GridPoint) → Int)
    (D : SimulationData) (p_energy : ℚ) (mat : Int)
    (macro_xs_vector : Fin 5 → ℚ) : Fin 5 → ℚ :=
  let cleared := clear_macro_xs macro_xs_vector
  let idx := grid_search (D.n_isotopes * D.n_gridpoints) p_energy D.energy_grid
  nuclide_loop D p_energy mat idx 0 cleared

/-! ## Verification hash -/

/-- The statement `vhash += vhash_local;` (line 392) on `unsigned long long`. -/
def vhash_add (vhash vhash_local : Nat) : Nat :=
  (vhash + vhash_local) % 2 ^ 64

/-- The value of `vhash` after the lookup loop: it starts at `0` (line 20) and the
trials add their hashes one after the other, in the order of the list. -/
def vhash_run (hashes : List Nat) : Nat :=
  hashes.foldl vhash_add 0

/-! ## Concrete data used to exercise the theorems -/

/-- Modelled from the spec: the loop of `grid_search` (spec section 4.3), a function of
another translation unit. Bisection on the unionized grid keeping `lower` and `upper`,
halving the distance at each step until it is at most one. -/
def grid_search_loop (A : Int → GridPoint) (quarry : ℚ) (lower upper : Int) : Int :=
  if 1 < upper - lower then
    if quarry < (A (lower + (upper - lower) / 2)).energy then
      grid_search_loop A quarry lower (lower + (upper - lower) / 2)
    else
      grid_search_loop A quarry (lower + (upper - lower) / 2) upper
  else lower
termination_by (upper - lower).toNat
decreasing_by
  all_goals omega

/-- Modelled from the spec: `grid_search(n, quarry, A)` (spec section 4.3), a function of
another translation unit: the largest index whose energy is at most the query, kept
inside `0..n-2`. -/
def grid_search (n : Int) (quarry : ℚ) (A : Int → GridPoint) : Int :=
  grid_search_loop A quarry 0 (n - 1)

/-- A sample of the scenario grids: energy `e` and five cross sections derived from it. -/
def scenario_sample (e : ℚ) : NuclideGridPoint :=
  { energy := e, total_xs := e * e, elastic_xs := e + 1, absorbtion_xs := 2 * e,
    fission_xs := 3, nu_fission_xs := 10 - e }

/-- The index table of the scenario, row after row: two entries (isotope 0, isotope 1) for each
of the eight points of the unionized grid. -/
def scenario_grid_ptrs : Int → Int
  | 0 => 0
  | 1 => 0
  | 2 => 0
  | 3 => 0
  | 4 => 1
  | 5 => 0
  | 6 => 1
  | 7 => 1
  | 8 => 2
  | 9 => 1
  | 10 => 2
  | 11 => 2
  | 12 => 3
  | 13 => 2
  | 14 => 3
  | 15 => 3
  | _ => 0

/-- The energies of the nuclide grids of the scenario, isotope 0 in cells `0..3` and isotope 1
in cells `4..7`. -/
def scenario_energy : Int → ℚ
  | 0 => 1
  | 1 => 3
  | 2 => 5
  | 3 => 7
  | 4 => 2
  | 5 => 4
  | 6 => 6
  | 7 => 8
  | _ => 0

/-- The scenario of spec section 8: two isotopes with four samples each, energies
`[1,3,5,7]` and `[2,4,6,8]`; the unionized grid has the energies `1..8` and row `g` of
the index table starts at offset `2 * g`. Material 0 consists of both isotopes with
concentrations `1/2` and `2`; material 1 has no nuclide. -/
def scenario_data : SimulationData :=
  { n_isotopes := 2
    n_gridpoints := 4
    energy_grid := fun g => { energy := (g : ℚ) + 1, xs_ptrs := 2 * g }
    grid_ptrs := scenario_grid_ptrs
    nuclide_grids := fun c => scenario_sample (scenario_energy c)
    num_nucs := fun m => if m = 0 then 2 else 0
    mats_idx := fun m => if m = 0 then 0 else 2
    mats := fun i => if i = 1 then 1 else 0
    concs := fun i => if i = 0 then 1 / 2 else if i = 1 then 2 else 0 }

/-- Rounding of a rational to the nearest integer, ties to the even one. -/
def round_even (y : ℚ) : Int :=
  if y - ⌊y⌋ < 1 / 2 then ⌊y⌋
  else if 1 / 2 < y - ⌊y⌋ then ⌊y⌋ + 1
  else if ⌊y⌋ % 2 = 0 then ⌊y⌋ else ⌊y⌋ + 1

/-- The exponent of the unit in the last place of the binary64 values of the binade
of `x`: a significand of 53 bits, so `2 ^ 52 ≤ |x| / 2 ^ ulp_exponent x < 2 ^ 53`. -/
def ulp_exponent (x : ℚ) : Int :=
  Int.log 2 |x| - 52

/-- The binary64 value nearest to `x`, ties to even (the rounding of every `double`
operation and of the conversion of a decimal constant). The exponent range is not
bounded: overflow and subnormal numbers are not modelled. -/
def round64 (x : ℚ) : ℚ :=
  if x = 0 then 0 else (round_even (x / 2 ^ ulp_exponent x) : ℚ) * 2 ^ ulp_exponent x

/-- The `double` stored in `dist[j]` by lines 242-253: the binary64 value nearest to the
decimal constant. -/
def dist_b64 (j : Int) : ℚ :=
  round64 (dist j)

/-- The inner loop `for (int j = mat; j > 0; j--) running += dist[j];` (lines 270-271)
in binary64: every `+=` rounds its sum. -/
def running_loop_b64 (d : Int → ℚ) (j : Int) (running : ℚ) : ℚ :=
  if 0 < j then running_loop_b64 d (j - 1) (round64 (running + d j)) else running
termination_by j.toNat
decreasing_by omega

/-- The value of `running` that line 272 compares `roll` with when the loop variable is
`mat`: `running = 0` (line 269) followed by the inner loop from `j = mat`. -/
def running_b64 (d : Int → ℚ) (mat : Nat) : ℚ :=
  running_loop_b64 d (mat : Int) 0

/-- The outer loop `for (mat = 0; mat < 12; mat++)` (lines 267-274) with the running sum
computed in binary64. -/
def pick_mat_loop_b64 (d : Int → ℚ) (roll : ℚ) (mat : Int) : Int :=
  if mat < 12 then
    if roll < running_loop_b64 d mat 0 then mat
    else pick_mat_loop_b64 d roll (mat + 1)
  else mat
termination_by (12 - mat).toNat
decreasing_by omega

/-- Lines 267-275 in binary64 over an arbitrary table of doubles. -/
def pick_mat_dist_b64 (d : Int → ℚ) (roll : ℚ) : Int :=
  Int.tmod (pick_mat_loop_b64 d roll 0) 12

/-- The inlined `pick_mat(roll)` of lines 241-276 in binary64. -/
def pick_mat_b64 (roll : ℚ) : Int :=
  pick_mat_dist_b64 dist_b64 roll

/-- The `double` nearest to `0.052`, which is `0x1.a9fbe76c8b439p-5`, slightly below
`52 / 1000`. -/
def first_threshold_roll : ℚ :=
  7493989779944505 / 2 ^ 57

theorem running_loop_nat (d : Int → ℚ) (n : Nat) (acc : ℚ) :
    running_loop d (n : Int) acc = acc + cumulative d n := by
  induction n generalizing acc with
  | zero =>
    rw [running_loop]
    simp [cumulative]
  | succ n ih =>
    rw [running_loop]
    have hpos : (0 : Int) < ((n + 1 : Nat) : Int) := by omega
    have hpred : ((n + 1 : Nat) : Int) - 1 = (n : Int) := by omega
    rw [if_pos hpos, hpred, ih]
    unfold cumulative
    rw [Finset.sum_Icc_succ_top (by omega)]
    ring

theorem running_loop_nonpos (d : Int → ℚ) (j : Int) (acc : ℚ) (hj : j ≤ 0) :
    running_loop d j acc = acc := by
  rw [running_loop, if_neg (by omega)]

theorem pick_mat_loop_spec (d : Int → ℚ) (r : ℚ) :
    ∀ k n : Nat, n + k = 12 →
      ∃ m : Nat, pick_mat_loop d r (n : Int) = (m : Int) ∧ n ≤ m ∧ m ≤ 12 ∧
        (∀ i : Nat, n ≤ i → i < m → ¬ r < cumulative d i) ∧
        (m < 12 → r < cumulative d m) := by
  intro k
  induction k with
  | zero =>
    intro n hn
    refine ⟨n, ?_, le_refl n, by omega, ?_, by omega⟩
    · rw [pick_mat_loop, if_neg (by omega)]
    · intro i h1 h2; omega
  | succ k ih =>
    intro n hn
    have hlt : (n : Int) < 12 := by omega
    rw [pick_mat_loop, if_pos hlt, running_loop_nat, zero_add]
    by_cases h : r < cumulative d n
    · rw [if_pos h]
      exact ⟨n, rfl, le_refl n, by omega, fun i h1 h2 => by omega, fun _ => h⟩
    · rw [if_neg h]
      obtain ⟨m, hm, hle, hle12, hbelow, hat⟩ := ih (n + 1) (by omega)
      refine ⟨m, ?_, by omega, hle12, ?_, hat⟩
      · rw [← hm]; norm_cast
      · intro i h1 h2
        by_cases hi : i = n
        · rw [hi]; exact h
        · exact hbelow i (by omega) h2

theorem pick_mat_dist_spec (d : Int → ℚ) (r : ℚ) :
    ∃ m : Nat, m ≤ 12 ∧ (∀ i : Nat, i < m → ¬ r < cumulative d i) ∧
      (m < 12 → r < cumulative d m) ∧
      pick_mat_dist d r = if m < 12 then (m : Int) else 0 := by
  obtain ⟨m, hm, -, hle12, hbelow, hat⟩ := pick_mat_loop_spec d r 12 0 rfl
  refine ⟨m, hle12, fun i hi => hbelow i (Nat.zero_le i) hi, hat, ?_⟩
  unfold pick_mat_dist
  have h0 : ((0 : Nat) : Int) = 0 := rfl
  rw [← h0, hm]
  by_cases h : m < 12
  · rw [if_pos h]
    exact Int.tmod_eq_of_lt (by omega) (by omega)
  · have : m = 12 := by omega
    subst this
    decide

theorem cumulative_zero (d : Int → ℚ) : cumulative d 0 = 0 := by
  simp [cumulative]

theorem cumulative_succ (d : Int → ℚ) (m : Nat) :
    cumulative d (m + 1) = cumulative d m + d ((m : Int) + 1) := by
  unfold cumulative
  rw [Finset.sum_Icc_succ_top (by omega)]
  push_cast
  rfl

theorem cumulative_dist_values :
    cumulative dist 0 = 0 ∧ cumulative dist 1 = 52 / 1000 ∧ cumulative dist 2 = 327 / 1000 ∧
    cumulative dist 3 = 461 / 1000 ∧ cumulative dist 4 = 615 / 1000 ∧
    cumulative dist 5 = 679 / 1000 ∧ cumulative dist 6 = 745 / 1000 ∧
    cumulative dist 7 = 800 / 1000 ∧ cumulative dist 8 = 808 / 1000 ∧
    cumulative dist 9 = 823 / 1000 ∧ cumulative dist 10 = 848 / 1000 ∧
    cumulative dist 11 = 861 / 1000 := by
  simp only [cumulative_succ, cumulative_zero, dist]
  norm_num

theorem pick_mat_dist_range (d : Int → ℚ) (r : ℚ) :
    0 ≤ pick_mat_dist d r ∧ pick_mat_dist d r < 12 := by
  obtain ⟨m, -, -, -, hres⟩ := pick_mat_dist_spec d r
  rw [hres]
  split_ifs with h
  · omega
  · omega

/-! ## Lemmas on binary64 rounding -/

theorem ulp_exponent_eq (x : ℚ) (e : Int) (hx : 0 < x) (hlo : (2 : ℚ) ^ (e + 52) ≤ x)
    (hhi : x < (2 : ℚ) ^ (e + 53)) : ulp_exponent x = e := by
  unfold ulp_exponent
  rw [abs_of_pos hx]
  have h1 : e + 52 ≤ Int.log 2 x :=
    (Int.zpow_le_iff_le_log (b := 2) (by norm_num) (x := e + 52) hx).mp
      (by exact_mod_cast hlo)
  have h2 : Int.log 2 x < e + 53 :=
    (Int.lt_zpow_iff_log_lt (b := 2) (by norm_num) (x := e + 53) hx).mp
      (by exact_mod_cast hhi)
  omega

theorem round64_eq (x : ℚ) (e n : Int) (hx : 0 < x) (hlo : (2 : ℚ) ^ (e + 52) ≤ x)
    (hhi : x < (2 : ℚ) ^ (e + 53)) (hn : round_even (x / 2 ^ e) = n) :
    round64 x = (n : ℚ) * 2 ^ e := by
  unfold round64
  rw [if_neg hx.ne', ulp_exponent_eq x e hx hlo hhi, hn]

theorem round_even_down (y : ℚ) (n : Int) (h1 : (n : ℚ) ≤ y) (h2 : y < n + 1 / 2) :
    round_even y = n := by
  have hf : ⌊y⌋ = n := Int.floor_eq_iff.mpr ⟨h1, by linarith⟩
  unfold round_even
  rw [hf, if_pos (by linarith)]

theorem round_even_up (y : ℚ) (n : Int) (h1 : (n : ℚ) - 1 / 2 < y) (h2 : y < n) :
    round_even y = n := by
  have hf : ⌊y⌋ = n - 1 :=
    Int.floor_eq_iff.mpr ⟨by push_cast; linarith, by push_cast; linarith⟩
  unfold round_even
  rw [hf, if_neg (by push_cast; linarith), if_pos (by push_cast; linarith)]
  ring

theorem round_even_tie (y : ℚ) (n : Int) (h : y = n + 1 / 2) :
    round_even y = if n % 2 = 0 then n else n + 1 := by
  have hf : ⌊y⌋ = n := Int.floor_eq_iff.mpr ⟨by linarith, by linarith⟩
  unfold round_even
  rw [hf, if_neg (by linarith), if_neg (by linarith)]

theorem running_loop_b64_step (d : Int → ℚ) (j k : Int) (acc s : ℚ) (hj : 0 < j)
    (hk : j - 1 = k) (hs : round64 (acc + d j) = s) :
    running_loop_b64 d j acc = running_loop_b64 d k s := by
  rw [running_loop_b64, if_pos hj, hk, hs]

theorem running_loop_b64_zero (d : Int → ℚ) (acc : ℚ) : running_loop_b64 d 0 acc = acc := by
  rw [running_loop_b64, if_neg (by norm_num)]

/-! ## The binary64 values of the table and of the running sums -/

theorem dist_b64_1 : dist_b64 1 = 7493989779944505 / 2 ^ 57 := by
  have h : dist 1 = 52 / 1000 := by simp only [dist]; norm_num
  unfold dist_b64
  rw [h]
  exact
    (round64_eq (52 / 1000) (-57) 7493989779944505
      (by norm_num) (by norm_num) (by norm_num)
      (round_even_down _ _ (by norm_num) (by norm_num))).trans (by norm_num)

theorem dist_b64_2 : dist_b64 2 = 2476979795053773 / 2 ^ 53 := by
  have h : dist 2 = 275 / 1000 := by simp only [dist]; norm_num
  unfold dist_b64
  rw [h]
  exact
    (round64_eq (275 / 1000) (-54) 4953959590107546
      (by norm_num) (by norm_num) (by norm_num)
      (round_even_up _ _ (by norm_num) (by norm_num))).trans (by norm_num)

theorem dist_b64_3 : dist_b64 3 = 1206964700135293 / 2 ^ 53 := by
  have h : dist 3 = 134 / 1000 := by simp only [dist]; norm_num
  unfold dist_b64
  rw [h]
  exact
    (round64_eq (134 / 1000) (-55) 4827858800541172
      (by norm_num) (by norm_num) (by norm_num)
      (round_even_up _ _ (by norm_num) (by norm_num))).trans (by norm_num)

theorem dist_b64_4 : dist_b64 4 = 5548434740920451 / 2 ^ 55 := by
  have h : dist 4 = 154 / 1000 := by simp only [dist]; norm_num
  unfold dist_b64
  rw [h]
  exact
    (round64_eq (154 / 1000) (-55) 5548434740920451
      (by norm_num) (by norm_num) (by norm_num)
      (round_even_down _ _ (by norm_num) (by norm_num))).trans (by norm_num)

theorem dist_b64_5 : dist_b64 5 = 1152921504606847 / 2 ^ 54 := by
  have h : dist 5 = 64 / 1000 := by simp only [dist]; norm_num
  unfold dist_b64
  rw [h]
  exact
    (round64_eq (64 / 1000) (-56) 4611686018427388
      (by norm_num) (by norm_num) (by norm_num)
      (round_even_up _ _ (by norm_num) (by norm_num))).trans (by norm_num)

theorem dist_b64_6 : dist_b64 6 = 1188950301625811 / 2 ^ 54 := by
  have h : dist 6 = 66 / 1000 := by simp only [dist]; norm_num
  unfold dist_b64
  rw [h]
  exact
    (round64_eq (66 / 1000) (-56) 4755801206503244
      (by norm_num) (by norm_num) (by norm_num)
      (round_even_up _ _ (by norm_num) (by norm_num))).trans (by norm_num)

theorem dist_b64_7 : dist_b64 7 = 7926335344172073 / 2 ^ 57 := by
  have h : dist 7 = 55 / 1000 := by simp only [dist]; norm_num
  unfold dist_b64
  rw [h]
  exact
    (round64_eq (55 / 1000) (-57) 7926335344172073
      (by norm_num) (by norm_num) (by norm_num)
      (round_even_up _ _ (by norm_num) (by norm_num))).trans (by norm_num)

theorem dist_b64_8 : dist_b64 8 = 1152921504606847 / 2 ^ 57 := by
  have h : dist 8 = 8 / 1000 := by simp only [dist]; norm_num
  unfold dist_b64
  rw [h]
  exact
    (round64_eq (8 / 1000) (-59) 4611686018427388
      (by norm_num) (by norm_num) (by norm_num)
      (round_even_up _ _ (by norm_num) (by norm_num))).trans (by norm_num)

theorem dist_b64_9 : dist_b64 9 = 1080863910568919 / 2 ^ 56 := by
  have h : dist 9 = 15 / 1000 := by simp only [dist]; norm_num
  unfold dist_b64
  rw [h]
  exact
    (round64_eq (15 / 1000) (-59) 8646911284551352
      (by norm_num) (by norm_num) (by norm_num)
      (round_even_down _ _ (by norm_num) (by norm_num))).trans (by norm_num)

theorem dist_b64_10 : dist_b64 10 = 3602879701896397 / 2 ^ 57 := by
  have h : dist 10 = 25 / 1000 := by simp only [dist]; norm_num
  unfold dist_b64
  rw [h]
  exact
    (round64_eq (25 / 1000) (-58) 7205759403792794
      (by norm_num) (by norm_num) (by norm_num)
      (round_even_up _ _ (by norm_num) (by norm_num))).trans (by norm_num)

theorem dist_b64_11 : dist_b64 11 = 7493989779944505 / 2 ^ 59 := by
  have h : dist 11 = 13 / 1000 := by simp only [dist]; norm_num
  unfold dist_b64
  rw [h]
  exact
    (round64_eq (13 / 1000) (-59) 7493989779944505
      (by norm_num) (by norm_num) (by norm_num)
      (round_even_down _ _ (by norm_num) (by norm_num))).trans (by norm_num)

theorem running_b64_step_1_1 :
    round64 (0 + dist_b64 1) = 7493989779944505 / 2 ^ 57 := by
  rw [dist_b64_1]
  exact
    (round64_eq (0 + 7493989779944505 / 2 ^ 57) (-57) 7493989779944505
      (by norm_num) (by norm_num) (by norm_num)
      (round_even_down _ _ (by norm_num) (by norm_num))).trans (by norm_num)

theorem running_b64_1 : running_b64 dist_b64 1 = 7493989779944505 / 2 ^ 57 := by
  show running_loop_b64 dist_b64 1 0 = 7493989779944505 / 2 ^ 57
  rw [running_loop_b64_step dist_b64 1 0 (0)
      (7493989779944505 / 2 ^ 57) (by norm_num) (by norm_num) running_b64_step_1_1,
    running_loop_b64_zero]

theorem running_b64_step_2_2 :
    round64 (0 + dist_b64 2) = 2476979795053773 / 2 ^ 53 := by
  rw [dist_b64_2]
  exact
    (round64_eq (0 + 2476979795053773 / 2 ^ 53) (-54) 4953959590107546
      (by norm_num) (by norm_num) (by norm_num)
      (round_even_down _ _ (by norm_num) (by norm_num))).trans (by norm_num)

theorem running_b64_step_2_1 :
    round64 (2476979795053773 / 2 ^ 53 + dist_b64 1) = 5890708312600609 / 2 ^ 54 := by
  rw [dist_b64_1]
  exact
    (round64_eq (2476979795053773 / 2 ^ 53 + 7493989779944505 / 2 ^ 57) (-54) 5890708312600609
      (by norm_num) (by norm_num) (by norm_num)
      (round_even_down _ _ (by norm_num) (by norm_num))).trans (by norm_num)

theorem running_b64_2 : running_b64 dist_b64 2 = 5890708312600609 / 2 ^ 54 := by
  show running_loop_b64 dist_b64 2 0 = 5890708312600609 / 2 ^ 54
  rw [running_loop_b64_step dist_b64 2 1 (0)
      (2476979795053773 / 2 ^ 53) (by norm_num) (by norm_num) running_b64_step_2_2,
    running_loop_b64_step dist_b64 1 0 (2476979795053773 / 2 ^ 53)
      (5890708312600609 / 2 ^ 54) (by norm_num) (by norm_num) running_b64_step_2_1,
    running_loop_b64_zero]

theorem running_b64_step_3_3 :
    round64 (0 + dist_b64 3) = 1206964700135293 / 2 ^ 53 := by
  rw [dist_b64_3]
  exact
    (round64_eq (0 + 1206964700135293 / 2 ^ 53) (-55) 4827858800541172
      (by norm_num) (by norm_num) (by norm_num)
      (round_even_down _ _ (by norm_num) (by norm_num))).trans (by norm_num)

theorem running_b64_step_3_2 :
    round64 (1206964700135293 / 2 ^ 53 + dist_b64 2) = 1841972247594533 / 2 ^ 52 := by
  rw [dist_b64_2]
  exact
    (round64_eq (1206964700135293 / 2 ^ 53 + 2476979795053773 / 2 ^ 53) (-54) 7367888990378132
      (by norm_num) (by norm_num) (by norm_num)
      (round_even_down _ _ (by norm_num) (by norm_num))).trans (by norm_num)

theorem running_b64_step_3_1 :
    round64 (1841972247594533 / 2 ^ 52 + dist_b64 1) = 8304637712871195 / 2 ^ 54 := by
  rw [dist_b64_1]
  exact
    (round64_eq (1841972247594533 / 2 ^ 52 + 7493989779944505 / 2 ^ 57) (-54) 8304637712871195
      (by norm_num) (by norm_num) (by norm_num)
      (round_even_down _ _ (by norm_num) (by norm_num))).trans (by norm_num)

theorem running_b64_3 : running_b64 dist_b64 3 = 8304637712871195 / 2 ^ 54 := by
  show running_loop_b64 dist_b64 3 0 = 8304637712871195 / 2 ^ 54
  rw [running_loop_b64_step dist_b64 3 2 (0)
      (1206964700135293 / 2 ^ 53) (by norm_num) (by norm_num) running_b64_step_3_3,
    running_loop_b64_step dist_b64 2 1 (1206964700135293 / 2 ^ 53)
      (1841972247594533 / 2 ^ 52) (by norm_num) (by norm_num) running_b64_step_3_2,
    running_loop_b64_step dist_b64 1 0 (1841972247594533 / 2 ^ 52)
      (8304637712871195 / 2 ^ 54) (by norm_num) (by norm_num) running_b64_step_3_1,
    running_loop_b64_zero]

theorem running_b64_step_4_4 :
    round64 (0 + dist_b64 4) = 5548434740920451 / 2 ^ 55 := by
  rw [dist_b64_4]
  exact
    (round64_eq (0 + 5548434740920451 / 2 ^ 55) (-55) 5548434740920451
      (by norm_num) (by norm_num) (by norm_num)
      (round_even_down _ _ (by norm_num) (by norm_num))).trans (by norm_num)

theorem running_b64_step_4_3 :
    round64 (5548434740920451 / 2 ^ 55 + dist_b64 3) = 1297036692682703 / 2 ^ 52 := by
  rw [dist_b64_3]
  exact
    (round64_eq (5548434740920451 / 2 ^ 55 + 1206964700135293 / 2 ^ 53) (-54) 5188146770730812
      (by norm_num) (by norm_num) (by norm_num)
      ((round_even_tie _ (5188146770730811) (by norm_num)).trans (by norm_num))).trans (by norm_num)

theorem running_b64_step_4_2 :
    round64 (1297036692682703 / 2 ^ 52 + dist_b64 2) = 5071053180419179 / 2 ^ 53 := by
  rw [dist_b64_2]
  exact
    (round64_eq (1297036692682703 / 2 ^ 52 + 2476979795053773 / 2 ^ 53) (-53) 5071053180419179
      (by norm_num) (by norm_num) (by norm_num)
      (round_even_down _ _ (by norm_num) (by norm_num))).trans (by norm_num)

theorem running_b64_step_4_1 :
    round64 (5071053180419179 / 2 ^ 53 + dist_b64 1) = 5539427541665711 / 2 ^ 53 := by
  rw [dist_b64_1]
  exact
    (round64_eq (5071053180419179 / 2 ^ 53 + 7493989779944505 / 2 ^ 57) (-53) 5539427541665711
      (by norm_num) (by norm_num) (by norm_num)
      (round_even_up _ _ (by norm_num) (by norm_num))).trans (by norm_num)

theorem running_b64_4 : running_b64 dist_b64 4 = 5539427541665711 / 2 ^ 53 := by
  show running_loop_b64 dist_b64 4 0 = 5539427541665711 / 2 ^ 53
  rw [running_loop_b64_step dist_b64 4 3 (0)
      (5548434740920451 / 2 ^ 55) (by norm_num) (by norm_num) running_b64_step_4_4,
    running_loop_b64_step dist_b64 3 2 (5548434740920451 / 2 ^ 55)
      (1297036692682703 / 2 ^ 52) (by norm_num) (by norm_num) running_b64_step_4_3,
    running_loop_b64_step dist_b64 2 1 (1297036692682703 / 2 ^ 52)
      (5071053180419179 / 2 ^ 53) (by norm_num) (by norm_num) running_b64_step_4_2,
    running_loop_b64_step dist_b64 1 0 (5071053180419179 / 2 ^ 53)
      (5539427541665711 / 2 ^ 53) (by norm_num) (by norm_num) running_b64_step_4_1,
    running_loop_b64_zero]

theorem running_b64_step_5_5 :
    round64 (0 + dist_b64 5) = 1152921504606847 / 2 ^ 54 := by
  rw [dist_b64_5]
  exact
    (round64_eq (0 + 1152921504606847 / 2 ^ 54) (-56) 4611686018427388
      (by norm_num) (by norm_num) (by norm_num)
      (round_even_down _ _ (by norm_num) (by norm_num))).trans (by norm_num)

theorem running_b64_step_5_4 :
    round64 (1152921504606847 / 2 ^ 54 + dist_b64 4) = 7854277750134145 / 2 ^ 55 := by
  rw [dist_b64_4]
  exact
    (round64_eq (1152921504606847 / 2 ^ 54 + 5548434740920451 / 2 ^ 55) (-55) 7854277750134145
      (by norm_num) (by norm_num) (by norm_num)
      (round_even_down _ _ (by norm_num) (by norm_num))).trans (by norm_num)

theorem running_b64_step_5_3 :
    round64 (7854277750134145 / 2 ^ 55 + dist_b64 3) = 3170534137668829 / 2 ^ 53 := by
  rw [dist_b64_3]
  exact
    (round64_eq (7854277750134145 / 2 ^ 55 + 1206964700135293 / 2 ^ 53) (-54) 6341068275337658
      (by norm_num) (by norm_num) (by norm_num)
      ((round_even_tie _ (6341068275337658) (by norm_num)).trans (by norm_num))).trans (by norm_num)

theorem running_b64_step_5_2 :
    round64 (3170534137668829 / 2 ^ 53 + dist_b64 2) = 2823756966361301 / 2 ^ 52 := by
  rw [dist_b64_2]
  exact
    (round64_eq (3170534137668829 / 2 ^ 53 + 2476979795053773 / 2 ^ 53) (-53) 5647513932722602
      (by norm_num) (by norm_num) (by norm_num)
      (round_even_down _ _ (by norm_num) (by norm_num))).trans (by norm_num)

theorem running_b64_step_5_1 :
    round64 (2823756966361301 / 2 ^ 52 + dist_b64 1) = 3057944146984567 / 2 ^ 52 := by
  rw [dist_b64_1]
  exact
    (round64_eq (2823756966361301 / 2 ^ 52 + 7493989779944505 / 2 ^ 57) (-53) 6115888293969134
      (by norm_num) (by norm_num) (by norm_num)
      (round_even_up _ _ (by norm_num) (by norm_num))).trans (by norm_num)

theorem running_b64_5 : running_b64 dist_b64 5 = 3057944146984567 / 2 ^ 52 := by
  show running_loop_b64 dist_b64 5 0 = 3057944146984567 / 2 ^ 52
  rw [running_loop_b64_step dist_b64 5 4 (0)
      (1152921504606847 / 2 ^ 54) (by norm_num) (by norm_num) running_b64_step_5_5,
    running_loop_b64_step dist_b64 4 3 (1152921504606847 / 2 ^ 54)
      (7854277750134145 / 2 ^ 55) (by norm_num) (by norm_num) running_b64_step_5_4,
    running_loop_b64_step dist_b64 3 2 (7854277750134145 / 2 ^ 55)
      (3170534137668829 / 2 ^ 53) (by norm_num) (by norm_num) running_b64_step_5_3,
    running_loop_b64_step dist_b64 2 1 (3170534137668829 / 2 ^ 53)
      (2823756966361301 / 2 ^ 52) (by norm_num) (by norm_num) running_b64_step_5_2,
    running_loop_b64_step dist_b64 1 0 (2823756966361301 / 2 ^ 52)
      (3057944146984567 / 2 ^ 52) (by norm_num) (by norm_num) running_b64_step_5_1,
    running_loop_b64_zero]

theorem running_b64_step_6_6 :
    round64 (0 + dist_b64 6) = 1188950301625811 / 2 ^ 54 := by
  rw [dist_b64_6]
  exact
    (round64_eq (0 + 1188950301625811 / 2 ^ 54) (-56) 4755801206503244
      (by norm_num) (by norm_num) (by norm_num)
      (round_even_down _ _ (by norm_num) (by norm_num))).trans (by norm_num)

theorem running_b64_step_6_5 :
    round64 (1188950301625811 / 2 ^ 54 + dist_b64 5) = 1170935903116329 / 2 ^ 53 := by
  rw [dist_b64_5]
  exact
    (round64_eq (1188950301625811 / 2 ^ 54 + 1152921504606847 / 2 ^ 54) (-55) 4683743612465316
      (by norm_num) (by norm_num) (by norm_num)
      (round_even_down _ _ (by norm_num) (by norm_num))).trans (by norm_num)

theorem running_b64_step_6_4 :
    round64 (1170935903116329 / 2 ^ 53 + dist_b64 4) = 1279022294173221 / 2 ^ 52 := by
  rw [dist_b64_4]
  exact
    (round64_eq (1170935903116329 / 2 ^ 53 + 5548434740920451 / 2 ^ 55) (-54) 5116089176692884
      (by norm_num) (by norm_num) (by norm_num)
      ((round_even_tie _ (5116089176692883) (by norm_num)).trans (by norm_num))).trans (by norm_num)

theorem running_b64_step_6_3 :
    round64 (1279022294173221 / 2 ^ 52 + dist_b64 3) = 3765009288481735 / 2 ^ 53 := by
  rw [dist_b64_3]
  exact
    (round64_eq (1279022294173221 / 2 ^ 52 + 1206964700135293 / 2 ^ 53) (-54) 7530018576963470
      (by norm_num) (by norm_num) (by norm_num)
      (round_even_down _ _ (by norm_num) (by norm_num))).trans (by norm_num)

theorem running_b64_step_6_2 :
    round64 (3765009288481735 / 2 ^ 53 + dist_b64 2) = 1560497270883877 / 2 ^ 51 := by
  rw [dist_b64_2]
  exact
    (round64_eq (3765009288481735 / 2 ^ 53 + 2476979795053773 / 2 ^ 53) (-53) 6241989083535508
      (by norm_num) (by norm_num) (by norm_num)
      (round_even_down _ _ (by norm_num) (by norm_num))).trans (by norm_num)

theorem running_b64_step_6_1 :
    round64 (1560497270883877 / 2 ^ 51 + dist_b64 1) = 838795430597755 / 2 ^ 50 := by
  rw [dist_b64_1]
  exact
    (round64_eq (1560497270883877 / 2 ^ 51 + 7493989779944505 / 2 ^ 57) (-53) 6710363444782040
      (by norm_num) (by norm_num) (by norm_num)
      (round_even_up _ _ (by norm_num) (by norm_num))).trans (by norm_num)

theorem running_b64_6 : running_b64 dist_b64 6 = 838795430597755 / 2 ^ 50 := by
  show running_loop_b64 dist_b64 6 0 = 838795430597755 / 2 ^ 50
  rw [running_loop_b64_step dist_b64 6 5 (0)
      (1188950301625811 / 2 ^ 54) (by norm_num) (by norm_num) running_b64_step_6_6,
    running_loop_b64_step dist_b64 5 4 (1188950301625811 / 2 ^ 54)
      (1170935903116329 / 2 ^ 53) (by norm_num) (by norm_num) running_b64_step_6_5,
    running_loop_b64_step dist_b64 4 3 (1170935903116329 / 2 ^ 53)
      (1279022294173221 / 2 ^ 52) (by norm_num) (by norm_num) running_b64_step_6_4,
    running_loop_b64_step dist_b64 3 2 (1279022294173221 / 2 ^ 52)
      (3765009288481735 / 2 ^ 53) (by norm_num) (by norm_num) running_b64_step_6_3,
    running_loop_b64_step dist_b64 2 1 (3765009288481735 / 2 ^ 53)
      (1560497270883877 / 2 ^ 51) (by norm_num) (by norm_num) running_b64_step_6_2,
    running_loop_b64_step dist_b64 1 0 (1560497270883877 / 2 ^ 51)
      (838795430597755 / 2 ^ 50) (by norm_num) (by norm_num) running_b64_step_6_1,
    running_loop_b64_zero]

theorem running_b64_step_7_7 :
    round64 (0 + dist_b64 7) = 7926335344172073 / 2 ^ 57 := by
  rw [dist_b64_7]
  exact
    (round64_eq (0 + 7926335344172073 / 2 ^ 57) (-57) 7926335344172073
      (by norm_num) (by norm_num) (by norm_num)
      (round_even_down _ _ (by norm_num) (by norm_num))).trans (by norm_num)

theorem running_b64_step_7_6 :
    round64 (7926335344172073 / 2 ^ 57 + dist_b64 6) = 272467777455915 / 2 ^ 51 := by
  rw [dist_b64_6]
  exact
    (round64_eq (7926335344172073 / 2 ^ 57 + 1188950301625811 / 2 ^ 54) (-56) 8718968878589280
      (by norm_num) (by norm_num) (by norm_num)
      ((round_even_tie _ (8718968878589280) (by norm_num)).trans (by norm_num))).trans (by norm_num)

theorem running_b64_step_7_5 :
    round64 (272467777455915 / 2 ^ 51 + dist_b64 5) = 3332663724254167 / 2 ^ 54 := by
  rw [dist_b64_5]
  exact
    (round64_eq (272467777455915 / 2 ^ 51 + 1152921504606847 / 2 ^ 54) (-55) 6665327448508334
      (by norm_num) (by norm_num) (by norm_num)
      (round_even_down _ _ (by norm_num) (by norm_num))).trans (by norm_num)

theorem running_b64_step_7_4 :
    round64 (3332663724254167 / 2 ^ 54 + dist_b64 4) = 763360136839299 / 2 ^ 51 := by
  rw [dist_b64_4]
  exact
    (round64_eq (3332663724254167 / 2 ^ 54 + 5548434740920451 / 2 ^ 55) (-54) 6106881094714392
      (by norm_num) (by norm_num) (by norm_num)
      ((round_even_tie _ (6106881094714392) (by norm_num)).trans (by norm_num))).trans (by norm_num)

theorem running_b64_step_7_3 :
    round64 (763360136839299 / 2 ^ 51 + dist_b64 3) = 4260405247492489 / 2 ^ 53 := by
  rw [dist_b64_3]
  exact
    (round64_eq (763360136839299 / 2 ^ 51 + 1206964700135293 / 2 ^ 53) (-54) 8520810494984978
      (by norm_num) (by norm_num) (by norm_num)
      (round_even_down _ _ (by norm_num) (by norm_num))).trans (by norm_num)

theorem running_b64_step_7_2 :
    round64 (4260405247492489 / 2 ^ 53 + dist_b64 2) = 3368692521273131 / 2 ^ 52 := by
  rw [dist_b64_2]
  exact
    (round64_eq (4260405247492489 / 2 ^ 53 + 2476979795053773 / 2 ^ 53) (-53) 6737385042546262
      (by norm_num) (by norm_num) (by norm_num)
      (round_even_down _ _ (by norm_num) (by norm_num))).trans (by norm_num)

theorem running_b64_step_7_1 :
    round64 (3368692521273131 / 2 ^ 52 + dist_b64 1) = 3602879701896397 / 2 ^ 52 := by
  rw [dist_b64_1]
  exact
    (round64_eq (3368692521273131 / 2 ^ 52 + 7493989779944505 / 2 ^ 57) (-53) 7205759403792794
      (by norm_num) (by norm_num) (by norm_num)
      (round_even_up _ _ (by norm_num) (by norm_num))).trans (by norm_num)

theorem running_b64_7 : running_b64 dist_b64 7 = 3602879701896397 / 2 ^ 52 := by
  show running_loop_b64 dist_b64 7 0 = 3602879701896397 / 2 ^ 52
  rw [running_loop_b64_step dist_b64 7 6 (0)
      (7926335344172073 / 2 ^ 57) (by norm_num) (by norm_num) running_b64_step_7_7,
    running_loop_b64_step dist_b64 6 5 (7926335344172073 / 2 ^ 57)
      (272467777455915 / 2 ^ 51) (by norm_num) (by norm_num) running_b64_step_7_6,
    running_loop_b64_step dist_b64 5 4 (272467777455915 / 2 ^ 51)
      (3332663724254167 / 2 ^ 54) (by norm_num) (by norm_num) running_b64_step_7_5,
    running_loop_b64_step dist_b64 4 3 (3332663724254167 / 2 ^ 54)
      (763360136839299 / 2 ^ 51) (by norm_num) (by norm_num) running_b64_step_7_4,
    running_loop_b64_step dist_b64 3 2 (763360136839299 / 2 ^ 51)
      (4260405247492489 / 2 ^ 53) (by norm_num) (by norm_num) running_b64_step_7_3,
    running_loop_b64_step dist_b64 2 1 (4260405247492489 / 2 ^ 53)
      (3368692521273131 / 2 ^ 52) (by norm_num) (by norm_num) running_b64_step_7_2,
    running_loop_b64_step dist_b64 1 0 (3368692521273131 / 2 ^ 52)
      (3602879701896397 / 2 ^ 52) (by norm_num) (by norm_num) running_b64_step_7_1,
    running_loop_b64_zero]

theorem running_b64_step_8_8 :
    round64 (0 + dist_b64 8) = 1152921504606847 / 2 ^ 57 := by
  rw [dist_b64_8]
  exact
    (round64_eq (0 + 1152921504606847 / 2 ^ 57) (-59) 4611686018427388
      (by norm_num) (by norm_num) (by norm_num)
      (round_even_down _ _ (by norm_num) (by norm_num))).trans (by norm_num)

theorem running_b64_step_8_7 :
    round64 (1152921504606847 / 2 ^ 57 + dist_b64 7) = 1134907106097365 / 2 ^ 54 := by
  rw [dist_b64_7]
  exact
    (round64_eq (1152921504606847 / 2 ^ 57 + 7926335344172073 / 2 ^ 57) (-56) 4539628424389460
      (by norm_num) (by norm_num) (by norm_num)
      (round_even_down _ _ (by norm_num) (by norm_num))).trans (by norm_num)

theorem running_b64_step_8_6 :
    round64 (1134907106097365 / 2 ^ 54 + dist_b64 6) = 290482175965397 / 2 ^ 51 := by
  rw [dist_b64_6]
  exact
    (round64_eq (1134907106097365 / 2 ^ 54 + 1188950301625811 / 2 ^ 54) (-55) 4647714815446352
      (by norm_num) (by norm_num) (by norm_num)
      (round_even_down _ _ (by norm_num) (by norm_num))).trans (by norm_num)

theorem running_b64_step_8_5 :
    round64 (290482175965397 / 2 ^ 51 + dist_b64 5) = 3476778912330023 / 2 ^ 54 := by
  rw [dist_b64_5]
  exact
    (round64_eq (290482175965397 / 2 ^ 51 + 1152921504606847 / 2 ^ 54) (-55) 6953557824660046
      (by norm_num) (by norm_num) (by norm_num)
      (round_even_down _ _ (by norm_num) (by norm_num))).trans (by norm_num)

theorem running_b64_step_8_4 :
    round64 (3476778912330023 / 2 ^ 54 + dist_b64 4) = 781374535348781 / 2 ^ 51 := by
  rw [dist_b64_4]
  exact
    (round64_eq (3476778912330023 / 2 ^ 54 + 5548434740920451 / 2 ^ 55) (-54) 6250996282790248
      (by norm_num) (by norm_num) (by norm_num)
      ((round_even_tie _ (6250996282790248) (by norm_num)).trans (by norm_num))).trans (by norm_num)

theorem running_b64_step_8_3 :
    round64 (781374535348781 / 2 ^ 51 + dist_b64 3) = 4332462841530417 / 2 ^ 53 := by
  rw [dist_b64_3]
  exact
    (round64_eq (781374535348781 / 2 ^ 51 + 1206964700135293 / 2 ^ 53) (-54) 8664925683060834
      (by norm_num) (by norm_num) (by norm_num)
      (round_even_down _ _ (by norm_num) (by norm_num))).trans (by norm_num)

theorem running_b64_step_8_2 :
    round64 (4332462841530417 / 2 ^ 53 + dist_b64 2) = 3404721318292095 / 2 ^ 52 := by
  rw [dist_b64_2]
  exact
    (round64_eq (4332462841530417 / 2 ^ 53 + 2476979795053773 / 2 ^ 53) (-53) 6809442636584190
      (by norm_num) (by norm_num) (by norm_num)
      (round_even_down _ _ (by norm_num) (by norm_num))).trans (by norm_num)

theorem running_b64_step_8_1 :
    round64 (3404721318292095 / 2 ^ 52 + dist_b64 1) = 3638908498915361 / 2 ^ 52 := by
  rw [dist_b64_1]
  exact
    (round64_eq (3404721318292095 / 2 ^ 52 + 7493989779944505 / 2 ^ 57) (-53) 7277816997830722
      (by norm_num) (by norm_num) (by norm_num)
      (round_even_up _ _ (by norm_num) (by norm_num))).trans (by norm_num)

theorem running_b64_8 : running_b64 dist_b64 8 = 3638908498915361 / 2 ^ 52 := by
  show running_loop_b64 dist_b64 8 0 = 3638908498915361 / 2 ^ 52
  rw [running_loop_b64_step dist_b64 8 7 (0)
      (1152921504606847 / 2 ^ 57) (by norm_num) (by norm_num) running_b64_step_8_8,
    running_loop_b64_step dist_b64 7 6 (1152921504606847 / 2 ^ 57)
      (1134907106097365 / 2 ^ 54) (by norm_num) (by norm_num) running_b64_step_8_7,
    running_loop_b64_step dist_b64 6 5 (1134907106097365 / 2 ^ 54)
      (290482175965397 / 2 ^ 51) (by norm_num) (by norm_num) running_b64_step_8_6,
    running_loop_b64_step dist_b64 5 4 (290482175965397 / 2 ^ 51)
      (3476778912330023 / 2 ^ 54) (by norm_num) (by norm_num) running_b64_step_8_5,
    running_loop_b64_step dist_b64 4 3 (3476778912330023 / 2 ^ 54)
      (781374535348781 / 2 ^ 51) (by norm_num) (by norm_num) running_b64_step_8_4,
    running_loop_b64_step dist_b64 3 2 (781374535348781 / 2 ^ 51)
      (4332462841530417 / 2 ^ 53) (by norm_num) (by norm_num) running_b64_step_8_3,
    running_loop_b64_step dist_b64 2 1 (4332462841530417 / 2 ^ 53)
      (3404721318292095 / 2 ^ 52) (by norm_num) (by norm_num) running_b64_step_8_2,
    running_loop_b64_step dist_b64 1 0 (3404721318292095 / 2 ^ 52)
      (3638908498915361 / 2 ^ 52) (by norm_num) (by norm_num) running_b64_step_8_1,
    running_loop_b64_zero]

theorem running_b64_step_9_9 :
    round64 (0 + dist_b64 9) = 1080863910568919 / 2 ^ 56 := by
  rw [dist_b64_9]
  exact
    (round64_eq (0 + 1080863910568919 / 2 ^ 56) (-59) 8646911284551352
      (by norm_num) (by norm_num) (by norm_num)
      (round_even_down _ _ (by norm_num) (by norm_num))).trans (by norm_num)

theorem running_b64_step_9_8 :
    round64 (1080863910568919 / 2 ^ 56 + dist_b64 8) = 3314649325744685 / 2 ^ 57 := by
  rw [dist_b64_8]
  exact
    (round64_eq (1080863910568919 / 2 ^ 56 + 1152921504606847 / 2 ^ 57) (-58) 6629298651489370
      (by norm_num) (by norm_num) (by norm_num)
      (round_even_down _ _ (by norm_num) (by norm_num))).trans (by norm_num)

theorem running_b64_step_9_7 :
    round64 (3314649325744685 / 2 ^ 57 + dist_b64 7) = 5620492334958379 / 2 ^ 56 := by
  rw [dist_b64_7]
  exact
    (round64_eq (3314649325744685 / 2 ^ 57 + 7926335344172073 / 2 ^ 57) (-56) 5620492334958379
      (by norm_num) (by norm_num) (by norm_num)
      (round_even_down _ _ (by norm_num) (by norm_num))).trans (by norm_num)

theorem running_b64_step_9_6 :
    round64 (5620492334958379 / 2 ^ 56 + dist_b64 6) = 1297036692682703 / 2 ^ 53 := by
  rw [dist_b64_6]
  exact
    (round64_eq (5620492334958379 / 2 ^ 56 + 1188950301625811 / 2 ^ 54) (-55) 5188146770730812
      (by norm_num) (by norm_num) (by norm_num)
      ((round_even_tie _ (5188146770730811) (by norm_num)).trans (by norm_num))).trans (by norm_num)

theorem running_b64_step_9_5 :
    round64 (1297036692682703 / 2 ^ 53 + dist_b64 5) = 3746994889972253 / 2 ^ 54 := by
  rw [dist_b64_5]
  exact
    (round64_eq (1297036692682703 / 2 ^ 53 + 1152921504606847 / 2 ^ 54) (-55) 7493989779944506
      (by norm_num) (by norm_num) (by norm_num)
      (round_even_down _ _ (by norm_num) (by norm_num))).trans (by norm_num)

theorem running_b64_step_9_4 :
    round64 (3746994889972253 / 2 ^ 54 + dist_b64 4) = 3260606130216239 / 2 ^ 53 := by
  rw [dist_b64_4]
  exact
    (round64_eq (3746994889972253 / 2 ^ 54 + 5548434740920451 / 2 ^ 55) (-54) 6521212260432478
      (by norm_num) (by norm_num) (by norm_num)
      ((round_even_tie _ (6521212260432478) (by norm_num)).trans (by norm_num))).trans (by norm_num)

theorem running_b64_step_9_3 :
    round64 (3260606130216239 / 2 ^ 53 + dist_b64 3) = 1116892707587883 / 2 ^ 51 := by
  rw [dist_b64_3]
  exact
    (round64_eq (3260606130216239 / 2 ^ 53 + 1206964700135293 / 2 ^ 53) (-54) 8935141660703064
      (by norm_num) (by norm_num) (by norm_num)
      (round_even_down _ _ (by norm_num) (by norm_num))).trans (by norm_num)

theorem running_b64_step_9_2 :
    round64 (1116892707587883 / 2 ^ 51 + dist_b64 2) = 6944550625405305 / 2 ^ 53 := by
  rw [dist_b64_2]
  exact
    (round64_eq (1116892707587883 / 2 ^ 51 + 2476979795053773 / 2 ^ 53) (-53) 6944550625405305
      (by norm_num) (by norm_num) (by norm_num)
      (round_even_down _ _ (by norm_num) (by norm_num))).trans (by norm_num)

theorem running_b64_step_9_1 :
    round64 (6944550625405305 / 2 ^ 53 + dist_b64 1) = 7412924986651837 / 2 ^ 53 := by
  rw [dist_b64_1]
  exact
    (round64_eq (6944550625405305 / 2 ^ 53 + 7493989779944505 / 2 ^ 57) (-53) 7412924986651837
      (by norm_num) (by norm_num) (by norm_num)
      (round_even_up _ _ (by norm_num) (by norm_num))).trans (by norm_num)

theorem running_b64_9 : running_b64 dist_b64 9 = 7412924986651837 / 2 ^ 53 := by
  show running_loop_b64 dist_b64 9 0 = 7412924986651837 / 2 ^ 53
  rw [running_loop_b64_step dist_b64 9 8 (0)
      (1080863910568919 / 2 ^ 56) (by norm_num) (by norm_num) running_b64_step_9_9,
    running_loop_b64_step dist_b64 8 7 (1080863910568919 / 2 ^ 56)
      (3314649325744685 / 2 ^ 57) (by norm_num) (by norm_num) running_b64_step_9_8,
    running_loop_b64_step dist_b64 7 6 (3314649325744685 / 2 ^ 57)
      (5620492334958379 / 2 ^ 56) (by norm_num) (by norm_num) running_b64_step_9_7,
    running_loop_b64_step dist_b64 6 5 (5620492334958379 / 2 ^ 56)
      (1297036692682703 / 2 ^ 53) (by norm_num) (by norm_num) running_b64_step_9_6,
    running_loop_b64_step dist_b64 5 4 (1297036692682703 / 2 ^ 53)
      (3746994889972253 / 2 ^ 54) (by norm_num) (by norm_num) running_b64_step_9_5,
    running_loop_b64_step dist_b64 4 3 (3746994889972253 / 2 ^ 54)
      (3260606130216239 / 2 ^ 53) (by norm_num) (by norm_num) running_b64_step_9_4,
    running_loop_b64_step dist_b64 3 2 (3260606130216239 / 2 ^ 53)
      (1116892707587883 / 2 ^ 51) (by norm_num) (by norm_num) running_b64_step_9_3,
    running_loop_b64_step dist_b64 2 1 (1116892707587883 / 2 ^ 51)
      (6944550625405305 / 2 ^ 53) (by norm_num) (by norm_num) running_b64_step_9_2,
    running_loop_b64_step dist_b64 1 0 (6944550625405305 / 2 ^ 53)
      (7412924986651837 / 2 ^ 53) (by norm_num) (by norm_num) running_b64_step_9_1,
    running_loop_b64_zero]

theorem running_b64_step_10_10 :
    round64 (0 + dist_b64 10) = 3602879701896397 / 2 ^ 57 := by
  rw [dist_b64_10]
  exact
    (round64_eq (0 + 3602879701896397 / 2 ^ 57) (-58) 7205759403792794
      (by norm_num) (by norm_num) (by norm_num)
      (round_even_down _ _ (by norm_num) (by norm_num))).trans (by norm_num)

theorem running_b64_step_10_9 :
    round64 (3602879701896397 / 2 ^ 57 + dist_b64 9) = 5764607523034235 / 2 ^ 57 := by
  rw [dist_b64_9]
  exact
    (round64_eq (3602879701896397 / 2 ^ 57 + 1080863910568919 / 2 ^ 56) (-57) 5764607523034235
      (by norm_num) (by norm_num) (by norm_num)
      (round_even_down _ _ (by norm_num) (by norm_num))).trans (by norm_num)

theorem running_b64_step_10_8 :
    round64 (5764607523034235 / 2 ^ 57 + dist_b64 8) = 3458764513820541 / 2 ^ 56 := by
  rw [dist_b64_8]
  exact
    (round64_eq (5764607523034235 / 2 ^ 57 + 1152921504606847 / 2 ^ 57) (-57) 6917529027641082
      (by norm_num) (by norm_num) (by norm_num)
      (round_even_down _ _ (by norm_num) (by norm_num))).trans (by norm_num)

theorem running_b64_step_10_7 :
    round64 (3458764513820541 / 2 ^ 56 + dist_b64 7) = 3710966092953289 / 2 ^ 55 := by
  rw [dist_b64_7]
  exact
    (round64_eq (3458764513820541 / 2 ^ 56 + 7926335344172073 / 2 ^ 57) (-56) 7421932185906578
      (by norm_num) (by norm_num) (by norm_num)
      ((round_even_tie _ (7421932185906577) (by norm_num)).trans (by norm_num))).trans (by norm_num)

theorem running_b64_step_10_6 :
    round64 (3710966092953289 / 2 ^ 55 + dist_b64 6) = 6088866696204911 / 2 ^ 55 := by
  rw [dist_b64_6]
  exact
    (round64_eq (3710966092953289 / 2 ^ 55 + 1188950301625811 / 2 ^ 54) (-55) 6088866696204911
      (by norm_num) (by norm_num) (by norm_num)
      (round_even_down _ _ (by norm_num) (by norm_num))).trans (by norm_num)

theorem running_b64_step_10_5 :
    round64 (6088866696204911 / 2 ^ 55 + dist_b64 5) = 8394709705418605 / 2 ^ 55 := by
  rw [dist_b64_5]
  exact
    (round64_eq (6088866696204911 / 2 ^ 55 + 1152921504606847 / 2 ^ 54) (-55) 8394709705418605
      (by norm_num) (by norm_num) (by norm_num)
      (round_even_down _ _ (by norm_num) (by norm_num))).trans (by norm_num)

theorem running_b64_step_10_4 :
    round64 (8394709705418605 / 2 ^ 55 + dist_b64 4) = 871446527896191 / 2 ^ 51 := by
  rw [dist_b64_4]
  exact
    (round64_eq (8394709705418605 / 2 ^ 55 + 5548434740920451 / 2 ^ 55) (-54) 6971572223169528
      (by norm_num) (by norm_num) (by norm_num)
      (round_even_down _ _ (by norm_num) (by norm_num))).trans (by norm_num)

theorem running_b64_step_10_3 :
    round64 (871446527896191 / 2 ^ 51 + dist_b64 3) = 4692750811720057 / 2 ^ 53 := by
  rw [dist_b64_3]
  exact
    (round64_eq (871446527896191 / 2 ^ 51 + 1206964700135293 / 2 ^ 53) (-53) 4692750811720057
      (by norm_num) (by norm_num) (by norm_num)
      (round_even_down _ _ (by norm_num) (by norm_num))).trans (by norm_num)

theorem running_b64_step_10_2 :
    round64 (4692750811720057 / 2 ^ 53 + dist_b64 2) = 3584865303386915 / 2 ^ 52 := by
  rw [dist_b64_2]
  exact
    (round64_eq (4692750811720057 / 2 ^ 53 + 2476979795053773 / 2 ^ 53) (-53) 7169730606773830
      (by norm_num) (by norm_num) (by norm_num)
      (round_even_down _ _ (by norm_num) (by norm_num))).trans (by norm_num)

theorem running_b64_step_10_1 :
    round64 (3584865303386915 / 2 ^ 52 + dist_b64 1) = 3819052484010181 / 2 ^ 52 := by
  rw [dist_b64_1]
  exact
    (round64_eq (3584865303386915 / 2 ^ 52 + 7493989779944505 / 2 ^ 57) (-53) 7638104968020362
      (by norm_num) (by norm_num) (by norm_num)
      (round_even_up _ _ (by norm_num) (by norm_num))).trans (by norm_num)

theorem running_b64_10 : running_b64 dist_b64 10 = 3819052484010181 / 2 ^ 52 := by
  show running_loop_b64 dist_b64 10 0 = 3819052484010181 / 2 ^ 52
  rw [running_loop_b64_step dist_b64 10 9 (0)
      (3602879701896397 / 2 ^ 57) (by norm_num) (by norm_num) running_b64_step_10_10,
    running_loop_b64_step dist_b64 9 8 (3602879701896397 / 2 ^ 57)
      (5764607523034235 / 2 ^ 57) (by norm_num) (by norm_num) running_b64_step_10_9,
    running_loop_b64_step dist_b64 8 7 (5764607523034235 / 2 ^ 57)
      (3458764513820541 / 2 ^ 56) (by norm_num) (by norm_num) running_b64_step_10_8,
    running_loop_b64_step dist_b64 7 6 (3458764513820541 / 2 ^ 56)
      (3710966092953289 / 2 ^ 55) (by norm_num) (by norm_num) running_b64_step_10_7,
    running_loop_b64_step dist_b64 6 5 (3710966092953289 / 2 ^ 55)
      (6088866696204911 / 2 ^ 55) (by norm_num) (by norm_num) running_b64_step_10_6,
    running_loop_b64_step dist_b64 5 4 (6088866696204911 / 2 ^ 55)
      (8394709705418605 / 2 ^ 55) (by norm_num) (by norm_num) running_b64_step_10_5,
    running_loop_b64_step dist_b64 4 3 (8394709705418605 / 2 ^ 55)
      (871446527896191 / 2 ^ 51) (by norm_num) (by norm_num) running_b64_step_10_4,
    running_loop_b64_step dist_b64 3 2 (871446527896191 / 2 ^ 51)
      (4692750811720057 / 2 ^ 53) (by norm_num) (by norm_num) running_b64_step_10_3,
    running_loop_b64_step dist_b64 2 1 (4692750811720057 / 2 ^ 53)
      (3584865303386915 / 2 ^ 52) (by norm_num) (by norm_num) running_b64_step_10_2,
    running_loop_b64_step dist_b64 1 0 (3584865303386915 / 2 ^ 52)
      (3819052484010181 / 2 ^ 52) (by norm_num) (by norm_num) running_b64_step_10_1,
    running_loop_b64_zero]

theorem running_b64_step_11_11 :
    round64 (0 + dist_b64 11) = 7493989779944505 / 2 ^ 59 := by
  rw [dist_b64_11]
  exact
    (round64_eq (0 + 7493989779944505 / 2 ^ 59) (-59) 7493989779944505
      (by norm_num) (by norm_num) (by norm_num)
      (round_even_down _ _ (by norm_num) (by norm_num))).trans (by norm_num)

theorem running_b64_step_11_10 :
    round64 (7493989779944505 / 2 ^ 59 + dist_b64 10) = 5476377146882523 / 2 ^ 57 := by
  rw [dist_b64_10]
  exact
    (round64_eq (7493989779944505 / 2 ^ 59 + 3602879701896397 / 2 ^ 57) (-57) 5476377146882523
      (by norm_num) (by norm_num) (by norm_num)
      (round_even_down _ _ (by norm_num) (by norm_num))).trans (by norm_num)

theorem running_b64_step_11_9 :
    round64 (5476377146882523 / 2 ^ 57 + dist_b64 9) = 7638104968020361 / 2 ^ 57 := by
  rw [dist_b64_9]
  exact
    (round64_eq (5476377146882523 / 2 ^ 57 + 1080863910568919 / 2 ^ 56) (-57) 7638104968020361
      (by norm_num) (by norm_num) (by norm_num)
      (round_even_down _ _ (by norm_num) (by norm_num))).trans (by norm_num)

theorem running_b64_step_11_8 :
    round64 (7638104968020361 / 2 ^ 57 + dist_b64 8) = 1098878309078401 / 2 ^ 54 := by
  rw [dist_b64_8]
  exact
    (round64_eq (7638104968020361 / 2 ^ 57 + 1152921504606847 / 2 ^ 57) (-57) 8791026472627208
      (by norm_num) (by norm_num) (by norm_num)
      (round_even_down _ _ (by norm_num) (by norm_num))).trans (by norm_num)

theorem running_b64_step_11_7 :
    round64 (1098878309078401 / 2 ^ 54 + dist_b64 7) = 1044835113549955 / 2 ^ 53 := by
  rw [dist_b64_7]
  exact
    (round64_eq (1098878309078401 / 2 ^ 54 + 7926335344172073 / 2 ^ 57) (-56) 8358680908399640
      (by norm_num) (by norm_num) (by norm_num)
      ((round_even_tie _ (8358680908399640) (by norm_num)).trans (by norm_num))).trans (by norm_num)

theorem running_b64_step_11_6 :
    round64 (1044835113549955 / 2 ^ 53 + dist_b64 6) = 3278620528725721 / 2 ^ 54 := by
  rw [dist_b64_6]
  exact
    (round64_eq (1044835113549955 / 2 ^ 53 + 1188950301625811 / 2 ^ 54) (-55) 6557241057451442
      (by norm_num) (by norm_num) (by norm_num)
      (round_even_down _ _ (by norm_num) (by norm_num))).trans (by norm_num)

theorem running_b64_step_11_5 :
    round64 (3278620528725721 / 2 ^ 54 + dist_b64 5) = 553942754166571 / 2 ^ 51 := by
  rw [dist_b64_5]
  exact
    (round64_eq (3278620528725721 / 2 ^ 54 + 1152921504606847 / 2 ^ 54) (-55) 8863084066665136
      (by norm_num) (by norm_num) (by norm_num)
      (round_even_down _ _ (by norm_num) (by norm_num))).trans (by norm_num)

theorem running_b64_step_11_4 :
    round64 (553942754166571 / 2 ^ 51 + dist_b64 4) = 3602879701896397 / 2 ^ 53 := by
  rw [dist_b64_4]
  exact
    (round64_eq (553942754166571 / 2 ^ 51 + 5548434740920451 / 2 ^ 55) (-54) 7205759403792794
      (by norm_num) (by norm_num) (by norm_num)
      ((round_even_tie _ (7205759403792793) (by norm_num)).trans (by norm_num))).trans (by norm_num)

theorem running_b64_step_11_3 :
    round64 (3602879701896397 / 2 ^ 53 + dist_b64 3) = 2404922201015845 / 2 ^ 52 := by
  rw [dist_b64_3]
  exact
    (round64_eq (3602879701896397 / 2 ^ 53 + 1206964700135293 / 2 ^ 53) (-53) 4809844402031690
      (by norm_num) (by norm_num) (by norm_num)
      (round_even_down _ _ (by norm_num) (by norm_num))).trans (by norm_num)

theorem running_b64_step_11_2 :
    round64 (2404922201015845 / 2 ^ 52 + dist_b64 2) = 7286824197085463 / 2 ^ 53 := by
  rw [dist_b64_2]
  exact
    (round64_eq (2404922201015845 / 2 ^ 52 + 2476979795053773 / 2 ^ 53) (-53) 7286824197085463
      (by norm_num) (by norm_num) (by norm_num)
      (round_even_down _ _ (by norm_num) (by norm_num))).trans (by norm_num)

theorem running_b64_step_11_1 :
    round64 (7286824197085463 / 2 ^ 53 + dist_b64 1) = 7755198558331995 / 2 ^ 53 := by
  rw [dist_b64_1]
  exact
    (round64_eq (7286824197085463 / 2 ^ 53 + 7493989779944505 / 2 ^ 57) (-53) 7755198558331995
      (by norm_num) (by norm_num) (by norm_num)
      (round_even_up _ _ (by norm_num) (by norm_num))).trans (by norm_num)

theorem running_b64_11 : running_b64 dist_b64 11 = 7755198558331995 / 2 ^ 53 := by
  show running_loop_b64 dist_b64 11 0 = 7755198558331995 / 2 ^ 53
  rw [running_loop_b64_step dist_b64 11 10 (0)
      (7493989779944505 / 2 ^ 59) (by norm_num) (by norm_num) running_b64_step_11_11,
    running_loop_b64_step dist_b64 10 9 (7493989779944505 / 2 ^ 59)
      (5476377146882523 / 2 ^ 57) (by norm_num) (by norm_num) running_b64_step_11_10,
    running_loop_b64_step dist_b64 9 8 (5476377146882523 / 2 ^ 57)
      (7638104968020361 / 2 ^ 57) (by norm_num) (by norm_num) running_b64_step_11_9,
    running_loop_b64_step dist_b64 8 7 (7638104968020361 / 2 ^ 57)
      (1098878309078401 / 2 ^ 54) (by norm_num) (by norm_num) running_b64_step_11_8,
    running_loop_b64_step dist_b64 7 6 (1098878309078401 / 2 ^ 54)
      (1044835113549955 / 2 ^ 53) (by norm_num) (by norm_num) running_b64_step_11_7,
    running_loop_b64_step dist_b64 6 5 (1044835113549955 / 2 ^ 53)
      (3278620528725721 / 2 ^ 54) (by norm_num) (by norm_num) running_b64_step_11_6,
    running_loop_b64_step dist_b64 5 4 (3278620528725721 / 2 ^ 54)
      (553942754166571 / 2 ^ 51) (by norm_num) (by norm_num) running_b64_step_11_5,
    running_loop_b64_step dist_b64 4 3 (553942754166571 / 2 ^ 51)
      (3602879701896397 / 2 ^ 53) (by norm_num) (by norm_num) running_b64_step_11_4,
    running_loop_b64_step dist_b64 3 2 (3602879701896397 / 2 ^ 53)
      (2404922201015845 / 2 ^ 52) (by norm_num) (by norm_num) running_b64_step_11_3,
    running_loop_b64_step dist_b64 2 1 (2404922201015845 / 2 ^ 52)
      (7286824197085463 / 2 ^ 53) (by norm_num) (by norm_num) running_b64_step_11_2,
    running_loop_b64_step dist_b64 1 0 (7286824197085463 / 2 ^ 53)
      (7755198558331995 / 2 ^ 53) (by norm_num) (by norm_num) running_b64_step_11_1,
    running_loop_b64_zero]

theorem running_b64_0 : running_b64 dist_b64 0 = 0 := by
  show running_loop_b64 dist_b64 0 0 = 0
  rw [running_loop_b64_zero]

theorem running_b64_values :
    running_b64 dist_b64 0 = 0 ∧
    running_b64 dist_b64 1 = 7493989779944505 / 2 ^ 57 ∧
    running_b64 dist_b64 2 = 5890708312600609 / 2 ^ 54 ∧
    running_b64 dist_b64 3 = 8304637712871195 / 2 ^ 54 ∧
    running_b64 dist_b64 4 = 5539427541665711 / 2 ^ 53 ∧
    running_b64 dist_b64 5 = 3057944146984567 / 2 ^ 52 ∧
    running_b64 dist_b64 6 = 838795430597755 / 2 ^ 50 ∧
    running_b64 dist_b64 7 = 3602879701896397 / 2 ^ 52 ∧
    running_b64 dist_b64 8 = 3638908498915361 / 2 ^ 52 ∧
    running_b64 dist_b64 9 = 7412924986651837 / 2 ^ 53 ∧
    running_b64 dist_b64 10 = 3819052484010181 / 2 ^ 52 ∧
    running_b64 dist_b64 11 = 7755198558331995 / 2 ^ 53 :=
  ⟨running_b64_0, running_b64_1, running_b64_2, running_b64_3, running_b64_4, running_b64_5, running_b64_6, running_b64_7, running_b64_8, running_b64_9, running_b64_10, running_b64_11⟩

/-! ## Lemmas on the selection loop in binary64 -/

theorem running_loop_b64_iota (d : Int → ℚ) (n : Nat) (acc : ℚ) :
    running_loop_b64 d (n : Int) acc =
      (List.iota n).foldl (fun (s : ℚ) (j : Nat) => round64 (s + d (j : Int))) acc := by
  induction n generalizing acc with
  | zero =>
    rw [List.iota, List.foldl_nil]
    exact running_loop_b64_zero d acc
  | succ n ih =>
    rw [running_loop_b64_step d ((n + 1 : Nat) : Int) (n : Int) acc _ (by omega)
      (by push_cast; ring) rfl, ih, List.iota, List.foldl_cons]

theorem pick_mat_loop_b64_spec (d : Int → ℚ) (r : ℚ) :
    ∀ k n : Nat, n + k = 12 →
      ∃ m : Nat, pick_mat_loop_b64 d r (n : Int) = (m : Int) ∧ n ≤ m ∧ m ≤ 12 ∧
        (∀ i : Nat, n ≤ i → i < m → ¬ r < running_b64 d i) ∧
        (m < 12 → r < running_b64 d m) := by
  intro k
  induction k with
  | zero =>
    intro n hn
    refine ⟨n, ?_, le_refl n, by omega, ?_, by omega⟩
    · rw [pick_mat_loop_b64, if_neg (by omega)]
    · intro i h1 h2; omega
  | succ k ih =>
    intro n hn
    have hlt : (n : Int) < 12 := by omega
    rw [pick_mat_loop_b64, if_pos hlt]
    by_cases h : r < running_b64 d n
    · have h2 : r < running_loop_b64 d (n : Int) 0 := h
      rw [if_pos h2]
      exact ⟨n, rfl, le_refl n, by omega, fun i h1 h2 => by omega, fun _ => h⟩
    · have h2 : ¬ r < running_loop_b64 d (n : Int) 0 := h
      rw [if_neg h2]
      obtain ⟨m, hm, hle, hle12, hbelow, hat⟩ := ih (n + 1) (by omega)
      refine ⟨m, ?_, by omega, hle12, ?_, hat⟩
      · rw [← hm]; norm_cast
      · intro i h1 h3
        by_cases hi : i = n
        · rw [hi]; exact h
        · exact hbelow i (by omega) h3

theorem pick_mat_dist_b64_spec (d : Int → ℚ) (r : ℚ) :
    ∃ m : Nat, m ≤ 12 ∧ (∀ i : Nat, i < m → ¬ r < running_b64 d i) ∧
      (m < 12 → r < running_b64 d m) ∧
      pick_mat_loop_b64 d r 0 = (m : Int) ∧
      pick_mat_dist_b64 d r = if m < 12 then (m : Int) else 0 := by
  obtain ⟨m, hm, -, hle12, hbelow, hat⟩ := pick_mat_loop_b64_spec d r 12 0 rfl
  have h0 : ((0 : Nat) : Int) = 0 := rfl
  rw [h0] at hm
  refine ⟨m, hle12, fun i hi => hbelow i (Nat.zero_le i) hi, hat, hm, ?_⟩
  unfold pick_mat_dist_b64
  rw [hm]
  by_cases h : m < 12
  · rw [if_pos h]
    exact Int.tmod_eq_of_lt (by omega) (by omega)
  · have : m = 12 := by omega
    subst this
    decide

theorem pick_mat_dist_b64_of_least (d : Int → ℚ) (r : ℚ) (mat : Nat) (hmat : mat < 12)
    (hlt : r < running_b64 d mat) (hleast : ∀ i : Nat, i < mat → ¬ r < running_b64 d i) :
    pick_mat_dist_b64 d r = (mat : Int) := by
  obtain ⟨m, -, hbelow, hat, -, hres⟩ := pick_mat_dist_b64_spec d r
  have hm : m = mat := by
    rcases Nat.lt_trichotomy m mat with h | h | h
    · exact absurd (hat (by omega)) (hleast m h)
    · exact h
    · exact absurd hlt (hbelow mat h)
  rw [hres, hm, if_pos hmat]

theorem pick_mat_dist_b64_of_none (d : Int → ℚ) (r : ℚ)
    (hnone : ∀ mat : Nat, mat < 12 → ¬ r < running_b64 d mat) :
    pick_mat_loop_b64 d r 0 = 12 ∧ pick_mat_dist_b64 d r = 0 := by
  obtain ⟨m, hm12, -, hat, hloop, hres⟩ := pick_mat_dist_b64_spec d r
  have h12 : m = 12 := by
    by_contra hne
    exact hnone m (by omega) (hat (by omega))
  subst h12
  exact ⟨hloop, by rw [hres]; rfl⟩

theorem running_b64_step_le (m : Nat) (hm : m < 11) :
    running_b64 dist_b64 m ≤ running_b64 dist_b64 (m + 1) := by
  obtain ⟨b0, b1, b2, b3, b4, b5, b6, b7, b8, b9, b10, b11⟩ := running_b64_values
  interval_cases m
  · rw [b0, b1]; norm_num
  · rw [b1, b2]; norm_num
  · rw [b2, b3]; norm_num
  · rw [b3, b4]; norm_num
  · rw [b4, b5]; norm_num
  · rw [b5, b6]; norm_num
  · rw [b6, b7]; norm_num
  · rw [b7, b8]; norm_num
  · rw [b8, b9]; norm_num
  · rw [b9, b10]; norm_num
  · rw [b10, b11]; norm_num

theorem running_b64_mono (i j : Nat) (hij : i ≤ j) (hj : j ≤ 11) :
    running_b64 dist_b64 i ≤ running_b64 dist_b64 j := by
  induction j with
  | zero =>
    have : i = 0 := by omega
    rw [this]
  | succ j ih =>
    rcases Nat.eq_or_lt_of_le hij with h | h
    · rw [h]
    · exact le_trans (ih (by omega) (by omega)) (running_b64_step_le j (by omega))

theorem running_b64_near_cumulative (m : Nat) (hm : m ≤ 11) :
    |running_b64 dist_b64 m - cumulative dist m| < 1 / 2 ^ 53 := by
  obtain ⟨b0, b1, b2, b3, b4, b5, b6, b7, b8, b9, b10, b11⟩ := running_b64_values
  obtain ⟨c0, c1, c2, c3, c4, c5, c6, c7, c8, c9, c10, c11⟩ := cumulative_dist_values
  rw [abs_lt]
  interval_cases m
  · rw [b0, c0]; norm_num
  · rw [b1, c1]; norm_num
  · rw [b2, c2]; norm_num
  · rw [b3, c3]; norm_num
  · rw [b4, c4]; norm_num
  · rw [b5, c5]; norm_num
  · rw [b6, c6]; norm_num
  · rw [b7, c7]; norm_num
  · rw [b8, c8]; norm_num
  · rw [b9, c9]; norm_num
  · rw [b10, c10]; norm_num
  · rw [b11, c11]; norm_num

theorem pick_mat_b64_eq_iff (r : ℚ) (m : Nat) (hm1 : 1 ≤ m) (hm11 : m ≤ 11) :
    pick_mat_b64 r = (m : Int) ↔
      running_b64 dist_b64 (m - 1) ≤ r ∧ r < running_b64 dist_b64 m := by
  obtain ⟨n, hn, hbelow, hat, -, hres⟩ := pick_mat_dist_b64_spec dist_b64 r
  unfold pick_mat_b64
  rw [hres]
  constructor
  · intro h
    have hnm : n = m := by
      split_ifs at h with hlt
      · omega
      · omega
    subst hnm
    exact ⟨not_lt.mp (hbelow (n - 1) (by omega)), hat (by omega)⟩
  · rintro ⟨hlo, hhi⟩
    have hnm : n = m := by
      rcases Nat.lt_trichotomy n m with h | h | h
      · have h1 : r < running_b64 dist_b64 n := hat (by omega)
        have h2 := running_b64_mono n (m - 1) (by omega) (by omega)
        linarith
      · exact h
      · exact absurd hhi (hbelow m h)
    rw [hnm, if_pos (by omega)]

theorem pick_mat_b64_eq_zero_iff (r : ℚ) (h0 : 0 ≤ r) :
    pick_mat_b64 r = 0 ↔ 7755198558331995 / 2 ^ 53 ≤ r := by
  obtain ⟨n, hn, hbelow, hat, -, hres⟩ := pick_mat_dist_b64_spec dist_b64 r
  have b11 := running_b64_11
  unfold pick_mat_b64
  rw [hres]
  constructor
  · intro h
    have hn12 : n = 12 := by
      by_contra hne
      have hlt : n < 12 := by omega
      rw [if_pos hlt] at h
      have hn0 : n = 0 := by omega
      have hr := hat hlt
      rw [hn0, running_b64_0] at hr
      linarith
    have := hbelow 11 (by omega)
    rw [b11] at this
    exact not_lt.mp this
  · intro h
    have hn12 : ¬ n < 12 := by
      intro hlt
      have h1 := hat hlt
      have h2 := running_b64_mono n 11 (by omega) (le_refl 11)
      rw [b11] at h2
      linarith
    rw [if_neg hn12]

theorem pick_mat_b64_mono (r₁ r₂ : ℚ) (hle : r₁ ≤ r₂) (hlt : r₂ < 861 / 1000) :
    pick_mat_b64 r₁ ≤ pick_mat_b64 r₂ := by
  have b11 := running_b64_11
  obtain ⟨m₁, hm₁, hbelow₁, -, -, hres₁⟩ := pick_mat_dist_b64_spec dist_b64 r₁
  obtain ⟨m₂, hm₂, hbelow₂, hat₂, -, hres₂⟩ := pick_mat_dist_b64_spec dist_b64 r₂
  have hlt₁ : m₁ < 12 := by
    by_contra hne
    exact hbelow₁ 11 (by omega) (by rw [b11]; linarith)
  have hlt₂ : m₂ < 12 := by
    by_contra hne
    exact hbelow₂ 11 (by omega) (by rw [b11]; linarith)
  unfold pick_mat_b64
  rw [hres₁, hres₂, if_pos hlt₁, if_pos hlt₂]
  by_contra hgt
  have hgt2 : m₂ < m₁ := by omega
  exact hbelow₁ m₂ hgt2 (lt_of_le_of_lt hle (hat₂ hlt₂))

theorem pick_mat_dist_b64_update_zero (d0 r : ℚ) :
    pick_mat_dist_b64 (Function.update dist_b64 0 d0) r = pick_mat_b64 r := by
  have hrun : ∀ m : Nat, running_b64 (Function.update dist_b64 0 d0) m =
      running_b64 dist_b64 m := by
    intro m
    unfold running_b64
    rw [running_loop_b64_iota, running_loop_b64_iota]
    apply List.foldl_ext
    intro s j hj
    have hj1 : 0 < j := (List.mem_iota.mp hj).1
    have hj0 : (j : Int) ≠ 0 := by omega
    rw [Function.update_noteq hj0]
  obtain ⟨m, hm12, hbelow, hat, -, hres⟩ := pick_mat_dist_b64_spec dist_b64 r
  obtain ⟨n, hn12, hbelow2, hat2, -, hres2⟩ :=
    pick_mat_dist_b64_spec (Function.update dist_b64 0 d0) r
  have hmn : n = m := by
    rcases Nat.lt_trichotomy n m with hlt | heq | hgt
    · exact absurd (hrun n ▸ hat2 (by omega)) (hbelow n hlt)
    · exact heq
    · exact absurd ((hrun m).symm ▸ hat (by omega)) (hbelow2 m hgt)
  unfold pick_mat_b64
  rw [hres, hres2, hmn]

theorem binary64_below_one (r : ℚ) (hr : round64 r = r) (h1 : 1 / 2 ≤ r) (h2 : r < 1) :
    ∃ k : Int, r = (k : ℚ) / 2 ^ 53 := by
  have hpos : 0 < r := by linarith
  have he : ulp_exponent r = -53 :=
    ulp_exponent_eq r (-53) hpos (by norm_num; linarith) (by norm_num; linarith)
  have hz : (2 : ℚ) ^ (-53 : Int) = 1 / 2 ^ 53 := by norm_num
  unfold round64 at hr
  rw [if_neg hpos.ne', he, hz] at hr
  generalize round_even (r / (1 / 2 ^ 53)) = n at hr
  exact ⟨n, by rw [← hr]; ring⟩

theorem pick_mat_b64_eq_zero_iff_binary64 (r : ℚ) (hr : round64 r = r) (h0 : 0 ≤ r)
    (h1 : r < 1) : pick_mat_b64 r = 0 ↔ 861 / 1000 ≤ r := by
  rw [pick_mat_b64_eq_zero_iff r h0]
  constructor
  · intro h
    have : (861 / 1000 : ℚ) ≤ 7755198558331995 / 2 ^ 53 := by norm_num
    linarith
  · intro h
    obtain ⟨k, hk⟩ := binary64_below_one r hr (by linarith) h1
    rw [hk] at h ⊢
    have hk2 : (861 : ℚ) * 2 ^ 53 ≤ 1000 * (k : ℚ) := by
      rw [div_le_div_iff₀ (by norm_num) (by norm_num)] at h
      linarith
    have hk3 : (861 : Int) * 2 ^ 53 ≤ 1000 * k := by exact_mod_cast hk2
    have hk4 : (7755198558331995 : Int) ≤ k := by omega
    have hk5 : (7755198558331995 : ℚ) ≤ (k : ℚ) := by exact_mod_cast hk4
    exact div_le_div_of_nonneg_right hk5 (by norm_num)

theorem pick_mat_b64_range (r : ℚ) : 0 ≤ pick_mat_b64 r ∧ pick_mat_b64 r < 12 := by
  obtain ⟨m, -, -, -, -, hres⟩ := pick_mat_dist_b64_spec dist_b64 r
  unfold pick_mat_b64
  rw [hres]
  split_ifs with h
  · omega
  · omega

theorem pick_mat_b64_fallback_binary64 (r : ℚ) (hr : round64 r = r) (h : 861 / 1000 ≤ r) :
    pick_mat_b64 r = 0 := by
  rcases lt_or_le r 1 with h1 | h1
  · exact (pick_mat_b64_eq_zero_iff_binary64 r hr (by linarith) h1).mpr h
  · refine (pick_mat_b64_eq_zero_iff r (by linarith)).mpr ?_
    have : (7755198558331995 / 2 ^ 53 : ℚ) ≤ 1 := by norm_num
    linarith

theorem pick_mat_b64_at_first_threshold : pick_mat_b64 first_threshold_roll = 2 := by
  obtain ⟨b0, b1, b2, -⟩ := running_b64_values
  unfold pick_mat_b64
  have h := pick_mat_dist_b64_of_least dist_b64 first_threshold_roll 2 (by norm_num)
    (by rw [b2]; norm_num [first_threshold_roll])
    (by
      intro i hi
      interval_cases i
      · rw [b0]; norm_num [first_threshold_roll]
      · rw [b1]; norm_num [first_threshold_roll])
  exact h

/-! ## Material selection: the claims -/

/-- C1, as stated, fails at the roll `0x1.a9fbe76c8b439p-5`, the `double` nearest to
`0.052`: it is not below the empty sum and it is below `dist[1] = 0.052` taken exactly, so
the rule of the claim gives material 1; the loop compares it with the running sum it
computed, which is that same `double`, the test of line 272 fails, and the loop breaks at
material 2. -/
theorem pick_mat_exact_sum_rule_fails :
    round64 first_threshold_roll = first_threshold_roll ∧
    ¬ first_threshold_roll < cumulative dist 0 ∧
    first_threshold_roll < cumulative dist 1 ∧
    running_b64 dist_b64 1 = first_threshold_roll ∧
    pick_mat_b64 first_threshold_roll = 2 := by
  obtain ⟨c0, c1, -⟩ := cumulative_dist_values
  refine ⟨?_, ?_, ?_, ?_, pick_mat_b64_at_first_threshold⟩
  · unfold first_threshold_roll
    exact
      (round64_eq (7493989779944505 / 2 ^ 57) (-57) 7493989779944505 (by norm_num)
        (by norm_num) (by norm_num)
        (round_even_down _ _ (by norm_num) (by norm_num))).trans (by norm_num)
  · rw [c0]; norm_num [first_threshold_roll]
  · rw [c1]; norm_num [first_threshold_roll]
  · rw [running_b64_1]; rfl

/-- C1 (amended). For every roll `r` the inlined `pick_mat` returns the smallest `mat` in
`0..11` with `r < running(mat)`, where `running(mat)` is the binary64 value the inner loop
computes: from 0 it adds `dist[mat]`, `dist[mat-1]`, ..., `dist[1]` in that order, rounding
after each addition (`0` for `mat = 0`; `dist[0]` is never added); when no `mat` in
`0..11` passes the test the loop is left with `mat = 12` and the result is material `0`.
The table holds the binary64 values nearest to the decimals of the source, and every
`running(mat)` is within `2 ^ -53` of the exact sum `dist[1] + ... + dist[mat]`. -/
theorem pick_mat_b64_running_sum_rule (r : ℚ) :
    (List.range 12).map (fun j : Nat => dist (j : Int)) =
        [140 / 1000, 52 / 1000, 275 / 1000, 134 / 1000, 154 / 1000, 64 / 1000, 66 / 1000,
          55 / 1000, 8 / 1000, 15 / 1000, 25 / 1000, 13 / 1000] ∧
    (∀ j : Int, dist_b64 j = round64 (dist j)) ∧
    (∀ m : Nat, running_b64 dist_b64 m =
      (List.iota m).foldl (fun (s : ℚ) (j : Nat) => round64 (s + dist_b64 (j : Int))) 0) ∧
    (∀ m : Nat, m ≤ 11 → |running_b64 dist_b64 m - cumulative dist m| < 1 / 2 ^ 53) ∧
    (∀ mat : Nat, mat < 12 → r < running_b64 dist_b64 mat →
      (∀ i : Nat, i < mat → ¬ r < running_b64 dist_b64 i) → pick_mat_b64 r = (mat : Int)) ∧
    ((∀ mat : Nat, mat < 12 → ¬ r < running_b64 dist_b64 mat) →
      pick_mat_loop_b64 dist_b64 r 0 = 12 ∧ pick_mat_b64 r = 0) := by
  refine ⟨?_, fun _ => rfl, fun m => running_loop_b64_iota dist_b64 m 0,
    running_b64_near_cumulative, ?_, ?_⟩
  · simp only [List.range, List.range.loop, List.map, dist]
    norm_num
  · intro mat hmat hlt hleast
    exact pick_mat_dist_b64_of_least dist_b64 r mat hmat hlt hleast
  · intro hnone
    exact pick_mat_dist_b64_of_none dist_b64 r hnone

/-- Witness of C1 (amended): roll `1/2` selects material 4, the first running sum above
it being that of `mat = 4`; roll `9/10`, above every running sum, leaves the loop at 12
and selects material 0. -/
theorem pick_mat_b64_running_sum_rule_witness :
    pick_mat_b64 (1 / 2) = 4 ∧
    (pick_mat_loop_b64 dist_b64 (9 / 10) 0 = 12 ∧ pick_mat_b64 (9 / 10) = 0) := by
  obtain ⟨b0, b1, b2, b3, b4, b5, b6, b7, b8, b9, b10, b11⟩ := running_b64_values
  refine ⟨(pick_mat_b64_running_sum_rule (1 / 2)).2.2.2.2.1 4 (by norm_num) ?_ ?_,
    (pick_mat_b64_running_sum_rule (9 / 10)).2.2.2.2.2 ?_⟩
  · rw [b4]; norm_num
  · intro i hi
    interval_cases i
    · rw [b0]; norm_num
    · rw [b1]; norm_num
    · rw [b2]; norm_num
    · rw [b3]; norm_num
  · intro mat hmat
    interval_cases mat
    · rw [b0]; norm_num
    · rw [b1]; norm_num
    · rw [b2]; norm_num
    · rw [b3]; norm_num
    · rw [b4]; norm_num
    · rw [b5]; norm_num
    · rw [b6]; norm_num
    · rw [b7]; norm_num
    · rw [b8]; norm_num
    · rw [b9]; norm_num
    · rw [b10]; norm_num
    · rw [b11]; norm_num

/-- C2. Every roll `r ≥ 0.861 = dist[1] + ... + dist[11]` is below none of the running
sums the loop tests, leaves the loop with `mat = 12`, and selects material `0` through
`mat % 12`, which is a valid material index. -/
theorem pick_mat_fallback (r : ℚ) (h : 861 / 1000 ≤ r) :
    cumulative dist 11 = 861 / 1000 ∧
    (∀ mat : Nat, mat < 12 → ¬ r < cumulative dist mat) ∧
    pick_mat_loop dist r 0 = 12 ∧ pick_mat r = 0 := by
  obtain ⟨c0, c1, c2, c3, c4, c5, c6, c7, c8, c9, c10, c11⟩ := cumulative_dist_values
  have hnone : ∀ mat : Nat, mat < 12 → ¬ r < cumulative dist mat := by
    intro mat hmat hlt
    interval_cases mat
    · rw [c0] at hlt; linarith
    · rw [c1] at hlt; linarith
    · rw [c2] at hlt; linarith
    · rw [c3] at hlt; linarith
    · rw [c4] at hlt; linarith
    · rw [c5] at hlt; linarith
    · rw [c6] at hlt; linarith
    · rw [c7] at hlt; linarith
    · rw [c8] at hlt; linarith
    · rw [c9] at hlt; linarith
    · rw [c10] at hlt; linarith
    · rw [c11] at hlt; linarith
  obtain ⟨m, hm, -, hle12, -, hat⟩ := pick_mat_loop_spec dist r 12 0 rfl
  have h12 : m = 12 := by
    by_contra hne
    exact hnone m (by omega) (hat (by omega))
  subst h12
  have hloop : pick_mat_loop dist r 0 = 12 := by
    have h0 : ((0 : Nat) : Int) = 0 := rfl
    rw [← h0, hm]
    rfl
  refine ⟨c11, hnone, hloop, ?_⟩
  unfold pick_mat pick_mat_dist
  rw [hloop]
  decide

/-- Witness of C2: the roll `0.999999` is at least `0.861` and selects material 0. -/
theorem pick_mat_fallback_witness :
    (861 / 1000 : ℚ) ≤ 999999 / 1000000 ∧
    pick_mat_loop dist (999999 / 1000000) 0 = 12 ∧ pick_mat (999999 / 1000000) = 0 :=
  ⟨by norm_num, (pick_mat_fallback (999999 / 1000000) (by norm_num)).2.2⟩

/-- C9. For every value of `roll`, negative rolls and rolls `≥ 1` included, the `mat`
left by the selection loop followed by `mat = mat % 12` satisfies `0 ≤ mat < 12`: the
assertions of lines 278-279 hold. -/
theorem pick_mat_asserts (roll : ℚ) : pick_mat roll < 12 ∧ pick_mat roll ≥ 0 := by
  have h := pick_mat_dist_range dist roll
  exact ⟨h.2, h.1⟩

/-- C10, as stated, fails at the roll `0x1.a9fbe76c8b439p-5`, the `double` nearest to
`0.052`: it lies in `[0, 1)` and in the interval `[c_0, c_1) = [0, 0.052)` of the exact
sums, yet the loop does not select material 1 for it. -/
theorem pick_mat_exact_intervals_fail :
    0 ≤ first_threshold_roll ∧ first_threshold_roll < 1 ∧
    cumulative dist 0 ≤ first_threshold_roll ∧
    first_threshold_roll < cumulative dist 1 ∧
    pick_mat_b64 first_threshold_roll ≠ 1 := by
  obtain ⟨c0, c1, -⟩ := cumulative_dist_values
  refine ⟨?_, ?_, ?_, ?_, ?_⟩
  · norm_num [first_threshold_roll]
  · norm_num [first_threshold_roll]
  · rw [c0]; norm_num [first_threshold_roll]
  · rw [c1]; norm_num [first_threshold_roll]
  · rw [pick_mat_b64_at_first_threshold]
    decide

/-- C10 (amended). With `b_0 = 0` and `b_m` the binary64 running sum the loop computes for
`mat = m`: for a roll `r` in `[0, 1)` and `m` in `1..11` the selected material is `m`
exactly when `b_(m-1) ≤ r < b_m`, an interval whose width differs from `dist[m]` by less
than `2 ^ -53`; the selection is non-decreasing in `r` on `[0, 0.861)`; the value stored
in `dist[0]` does not influence the result; material `0` is selected exactly on
`[b_11, 1)`, where `b_11 = 0x1.b8d4fdf3b645bp-1` exceeds `0.861` by less than `2 ^ -53`,
so that among the binary64 rolls of `[0, 1)` material 0 is selected exactly for those
`≥ 0.861`, a range of width `0.139` while `dist[0] = 0.140`. -/
theorem pick_mat_b64_intervals :
    (∀ (r : ℚ) (m : Nat), 0 ≤ r → r < 1 → 1 ≤ m → m ≤ 11 →
      (pick_mat_b64 r = (m : Int) ↔
        running_b64 dist_b64 (m - 1) ≤ r ∧ r < running_b64 dist_b64 m)) ∧
    running_b64 dist_b64 0 = 0 ∧
    (∀ m : Nat, 1 ≤ m → m ≤ 11 →
      |running_b64 dist_b64 m - running_b64 dist_b64 (m - 1) - dist (m : Int)|
        < 1 / 2 ^ 53) ∧
    (∀ r₁ r₂ : ℚ, 0 ≤ r₁ → r₁ ≤ r₂ → r₂ < 861 / 1000 → pick_mat_b64 r₁ ≤ pick_mat_b64 r₂) ∧
    (∀ (d0 r : ℚ), pick_mat_dist_b64 (Function.update dist_b64 0 d0) r = pick_mat_b64 r) ∧
    (∀ r : ℚ, 0 ≤ r → r < 1 → (pick_mat_b64 r = 0 ↔ running_b64 dist_b64 11 ≤ r)) ∧
    (running_b64 dist_b64 11 = 7755198558331995 / 2 ^ 53 ∧
      (861 / 1000 : ℚ) ≤ 7755198558331995 / 2 ^ 53 ∧
      (7755198558331995 / 2 ^ 53 : ℚ) - 861 / 1000 < 1 / 2 ^ 53) ∧
    (∀ r : ℚ, round64 r = r → 0 ≤ r → r < 1 → (pick_mat_b64 r = 0 ↔ 861 / 1000 ≤ r)) ∧
    ((1 : ℚ) - 861 / 1000 = 139 / 1000 ∧ dist 0 = 140 / 1000) := by
  refine ⟨fun r m _ _ hm1 hm11 => pick_mat_b64_eq_iff r m hm1 hm11, running_b64_0, ?_,
    fun r₁ r₂ _ hle hlt => pick_mat_b64_mono r₁ r₂ hle hlt, pick_mat_dist_b64_update_zero,
    ?_, ⟨running_b64_11, by norm_num, by norm_num⟩,
    fun r hr h0 h1 => pick_mat_b64_eq_zero_iff_binary64 r hr h0 h1, ?_⟩
  · intro m hm1 hm11
    obtain ⟨b0, b1, b2, b3, b4, b5, b6, b7, b8, b9, b10, b11⟩ := running_b64_values
    rw [abs_lt]
    interval_cases m
    · rw [b1, b0]; norm_num [dist]
    · rw [b2, b1]; norm_num [dist]
    · rw [b3, b2]; norm_num [dist]
    · rw [b4, b3]; norm_num [dist]
    · rw [b5, b4]; norm_num [dist]
    · rw [b6, b5]; norm_num [dist]
    · rw [b7, b6]; norm_num [dist]
    · rw [b8, b7]; norm_num [dist]
    · rw [b9, b8]; norm_num [dist]
    · rw [b10, b9]; norm_num [dist]
    · rw [b11, b10]; norm_num [dist]
  · intro r h0 _
    rw [running_b64_11]
    exact pick_mat_b64_eq_zero_iff r h0
  · constructor
    · norm_num
    · simp only [dist]; norm_num

/-- Witness of C10 (amended): roll `1/2` lies between the running sums of materials 3 and
4 and selects material 4; the rolls `1/10 ≤ 1/2` select materials in the same order; the
binary64 roll `7/8` selects material 0. -/
theorem pick_mat_b64_intervals_witness :
    (pick_mat_b64 (1 / 2) = 4 ↔
      running_b64 dist_b64 3 ≤ 1 / 2 ∧ 1 / 2 < running_b64 dist_b64 4) ∧
    |running_b64 dist_b64 4 - running_b64 dist_b64 3 - dist 4| < 1 / 2 ^ 53 ∧
    pick_mat_b64 (1 / 10) ≤ pick_mat_b64 (1 / 2) ∧
    (pick_mat_b64 (9 / 10) = 0 ↔ running_b64 dist_b64 11 ≤ 9 / 10) ∧
    round64 (7 / 8) = 7 / 8 ∧
    (pick_mat_b64 (7 / 8) = 0 ↔ (861 / 1000 : ℚ) ≤ 7 / 8) :=
  have h78 : round64 (7 / 8) = 7 / 8 :=
    (round64_eq (7 / 8) (-53) 7881299347898368 (by norm_num) (by norm_num) (by norm_num)
      (round_even_down _ _ (by norm_num) (by norm_num))).trans (by norm_num)
  ⟨pick_mat_b64_intervals.1 (1 / 2) 4 (by norm_num) (by norm_num) (by norm_num)
      (by norm_num),
    pick_mat_b64_intervals.2.2.1 4 (by norm_num) (by norm_num),
    pick_mat_b64_intervals.2.2.2.1 (1 / 10) (1 / 2) (by norm_num) (by norm_num)
      (by norm_num),
    pick_mat_b64_intervals.2.2.2.2.2.1 (9 / 10) (by norm_num) (by norm_num),
    h78,
    pick_mat_b64_intervals.2.2.2.2.2.2.2.1 (7 / 8) h78 (by norm_num) (by norm_num)⟩

/-! ## Interpolation -/

theorem interpolate_apply (low high : NuclideGridPoint) (E : ℚ) (k : Fin 5) :
    interpolate low high E k =
      high.channel k - interp_factor low high E * (high.channel k - low.channel k) := by
  fin_cases k <;> rfl

theorem scenario_grid_search :
    grid_search (scenario_data.n_isotopes * scenario_data.n_gridpoints) (9 / 2)
      scenario_data.energy_grid = 3 := by
  have h8 : scenario_data.n_isotopes * scenario_data.n_gridpoints = 8 := by decide
  rw [h8]
  unfold grid_search
  rw [grid_search_loop]
  norm_num [scenario_data]
  rw [grid_search_loop]
  norm_num
  rw [grid_search_loop]
  norm_num
  rw [grid_search_loop]
  norm_num

/-! ## Lemmas on the interpolation in binary64 -/

/-- C4. The inlined `calculate_micro_xs` is linear interpolation: for samples `low`, `high`
with distinct energies and every query energy `E`, each channel equals
`low.channel + (E - low.energy) / (high.energy - low.energy) * (high.channel - low.channel)`.
In the scenario (four samples per isotope, isotope 0 with energies 1, 3, 5, 7, index-table
entry 1, query `4.5`) `low` is the sample at energy 3, `high` the sample at energy 5,
`f = 0.25`, and each channel is `high.channel - 0.25 * (high.channel - low.channel)`. -/
theorem calculate_micro_xs_linear :
    (∀ (D : SimulationData) (E : ℚ) (p_nuc idx : Int), calculate_micro_xs D E p_nuc idx =
      interpolate (low_point D p_nuc idx) (high_point D p_nuc idx) E) ∧
    (∀ (low high : NuclideGridPoint) (E : ℚ), low.energy ≠ high.energy → ∀ k : Fin 5,
      interpolate low high E k =
        low.channel k +
          (E - low.energy) / (high.energy - low.energy) * (high.channel k - low.channel k)) ∧
    (∀ (D : SimulationData) (idx : Int), D.n_gridpoints = 4 → grid_ptr D idx 0 = 1 →
      (D.nuclide_grids 0).energy = 1 → (D.nuclide_grids 1).energy = 3 →
      (D.nuclide_grids 2).energy = 5 → (D.nuclide_grids 3).energy = 7 →
      low_point D 0 idx = D.nuclide_grids 1 ∧ high_point D 0 idx = D.nuclide_grids 2 ∧
      interp_factor (low_point D 0 idx) (high_point D 0 idx) (9 / 2) = 1 / 4 ∧
      ∀ k : Fin 5, calculate_micro_xs D (9 / 2) 0 idx k =
        (D.nuclide_grids 2).channel k -
          1 / 4 * ((D.nuclide_grids 2).channel k - (D.nuclide_grids 1).channel k)) := by
  refine ⟨fun _ _ _ _ => rfl, ?_, ?_⟩
  · intro low high E hne k
    have hden : high.energy - low.energy ≠ 0 := sub_ne_zero.mpr (Ne.symm hne)
    rw [interpolate_apply]
    unfold interp_factor interp_denominator
    field_simp
    ring
  · intro D idx hn hj _ e1 e2 _
    have hlow : low_point D 0 idx = D.nuclide_grids 1 := by
      unfold low_point low_index
      rw [hj, hn]
      norm_num
    have hhigh : high_point D 0 idx = D.nuclide_grids 2 := by
      unfold high_point low_index
      rw [hj, hn]
      norm_num
    have hf : interp_factor (low_point D 0 idx) (high_point D 0 idx) (9 / 2) = 1 / 4 := by
      rw [hlow, hhigh]
      unfold interp_factor interp_denominator
      rw [e1, e2]
      norm_num
    refine ⟨hlow, hhigh, hf, ?_⟩
    intro k
    unfold calculate_micro_xs
    rw [interpolate_apply, hf, hlow, hhigh]

/-- Witness of C4: the pair of scenario samples at energies 3 and 5 queried at `4.5`
(total cross sections 9 and 25, interpolated value 21), and the scenario data at row 3
of the unionized grid (energy 4), the row of the query `4.5`. -/
theorem calculate_micro_xs_linear_witness :
    (scenario_sample 3).energy ≠ (scenario_sample 5).energy ∧
    interpolate (scenario_sample 3) (scenario_sample 5) (9 / 2) 0 = 21 ∧
    (low_point scenario_data 0 3 = scenario_data.nuclide_grids 1 ∧
      high_point scenario_data 0 3 = scenario_data.nuclide_grids 2 ∧
      interp_factor (low_point scenario_data 0 3) (high_point scenario_data 0 3) (9 / 2)
        = 1 / 4 ∧
      calculate_micro_xs scenario_data (9 / 2) 0 3 0 = 21) :=
  have hscen := calculate_micro_xs_linear.2.2 scenario_data 3 rfl (by decide)
    (by norm_num [scenario_data, scenario_sample, scenario_energy])
    (by norm_num [scenario_data, scenario_sample, scenario_energy])
    (by norm_num [scenario_data, scenario_sample, scenario_energy])
    (by norm_num [scenario_data, scenario_sample, scenario_energy])
  ⟨by norm_num [scenario_sample],
    (calculate_micro_xs_linear.2.1 (scenario_sample 3) (scenario_sample 5) (9 / 2)
      (by norm_num [scenario_sample]) 0).trans
      (by norm_num [scenario_sample, NuclideGridPoint.channel]),
    hscen.1, hscen.2.1, hscen.2.2.1,
    (hscen.2.2.2 0).trans
      (by norm_num [scenario_data, scenario_sample, scenario_energy,
        NuclideGridPoint.channel])⟩

/-- C5. For samples `low`, `high` with distinct energies, the inlined `calculate_micro_xs`
queried at `high.energy` has `f = 0` and returns the five channel values of `high`;
queried at `low.energy` it has `f = 1` and returns the five channel values of `low`. -/
theorem calculate_micro_xs_endpoints (D : SimulationData) (p_nuc idx : Int)
    (hne : (low_point D p_nuc idx).energy ≠ (high_point D p_nuc idx).energy) :
    interp_factor (low_point D p_nuc idx) (high_point D p_nuc idx)
        (high_point D p_nuc idx).energy = 0 ∧
    (∀ k : Fin 5, calculate_micro_xs D (high_point D p_nuc idx).energy p_nuc idx k =
      (high_point D p_nuc idx).channel k) ∧
    interp_factor (low_point D p_nuc idx) (high_point D p_nuc idx)
        (low_point D p_nuc idx).energy = 1 ∧
    (∀ k : Fin 5, calculate_micro_xs D (low_point D p_nuc idx).energy p_nuc idx k =
      (low_point D p_nuc idx).channel k) := by
  have hden : (high_point D p_nuc idx).energy - (low_point D p_nuc idx).energy ≠ 0 :=
    sub_ne_zero.mpr (Ne.symm hne)
  have h0 : interp_factor (low_point D p_nuc idx) (high_point D p_nuc idx)
      (high_point D p_nuc idx).energy = 0 := by
    unfold interp_factor
    rw [sub_self, zero_div]
  have h1 : interp_factor (low_point D p_nuc idx) (high_point D p_nuc idx)
      (low_point D p_nuc idx).energy = 1 := by
    unfold interp_factor interp_denominator
    exact div_self hden
  refine ⟨h0, ?_, h1, ?_⟩
  · intro k
    unfold calculate_micro_xs
    rw [interpolate_apply, h0]
    ring
  · intro k
    unfold calculate_micro_xs
    rw [interpolate_apply, h1]
    ring

/-- Witness of C5: isotope 0 of the scenario at row 3, where `low` and `high` are the
samples at energies 3 and 5 with total cross sections 9 and 25. -/
theorem calculate_micro_xs_endpoints_witness :
    (low_point scenario_data 0 3).energy ≠ (high_point scenario_data 0 3).energy ∧
    calculate_micro_xs scenario_data (high_point scenario_data 0 3).energy 0 3 0 =
      (high_point scenario_data 0 3).channel 0 ∧
    calculate_micro_xs scenario_data (low_point scenario_data 0 3).energy 0 3 0 =
      (low_point scenario_data 0 3).channel 0 ∧
    (high_point scenario_data 0 3).channel 0 = 25 ∧
    (low_point scenario_data 0 3).channel 0 = 9 :=
  have hne : (low_point scenario_data 0 3).energy ≠ (high_point scenario_data 0 3).energy := by
    norm_num [low_point, high_point, low_index, grid_ptr, scenario_data, scenario_sample,
      scenario_energy, scenario_grid_ptrs]
  ⟨hne, (calculate_micro_xs_endpoints scenario_data 0 3 hne).2.1 0,
    (calculate_micro_xs_endpoints scenario_data 0 3 hne).2.2.2 0,
    by norm_num [high_point, low_index, grid_ptr, scenario_data, scenario_sample,
      scenario_energy, scenario_grid_ptrs, NuclideGridPoint.channel],
    by norm_num [low_point, low_index, grid_ptr, scenario_data, scenario_sample,
      scenario_energy, scenario_grid_ptrs, NuclideGridPoint.channel]⟩

/-- C6, as stated, fails for a grid of a single sample: with `n_gridpoints = 1` the only
entry `j = 0` equals `n_gridpoints - 1`, the code takes `low = j - 1 = -1`, and `-1` is
not an index of the row. -/
theorem low_index_single_sample :
    (0 : Int) ≤ 0 ∧ (0 : Int) ≤ 1 - 1 ∧ low_index 1 0 = -1 ∧
    ¬ (0 ≤ low_index 1 0 ∧ low_index 1 0 + 1 ≤ 1 - 1) := by
  decide

/-- C6 (amended). For a grid of at least two samples and every index-table entry `j` with
`0 ≤ j ≤ n_gridpoints - 1`, the column used for `low` is `j - 1` when
`j = n_gridpoints - 1` and `j` otherwise, and both `low` and `high = low + 1` are columns
inside `0..n_gridpoints - 1` of the row of nuclide `p_nuc`. -/
theorem low_index_in_row (D : SimulationData) (p_nuc idx : Int)
    (hn : 2 ≤ D.n_gridpoints) (h0 : 0 ≤ grid_ptr D idx p_nuc)
    (h1 : grid_ptr D idx p_nuc ≤ D.n_gridpoints - 1) :
    (grid_ptr D idx p_nuc = D.n_gridpoints - 1 →
      low_index D.n_gridpoints (grid_ptr D idx p_nuc) = grid_ptr D idx p_nuc - 1) ∧
    (grid_ptr D idx p_nuc ≠ D.n_gridpoints - 1 →
      low_index D.n_gridpoints (grid_ptr D idx p_nuc) = grid_ptr D idx p_nuc) ∧
    0 ≤ low_index D.n_gridpoints (grid_ptr D idx p_nuc) ∧
    low_index D.n_gridpoints (grid_ptr D idx p_nuc) + 1 ≤ D.n_gridpoints - 1 ∧
    low_point D p_nuc idx =
      D.nuclide_grids (p_nuc * D.n_gridpoints +
        low_index D.n_gridpoints (grid_ptr D idx p_nuc)) ∧
    high_point D p_nuc idx =
      D.nuclide_grids (p_nuc * D.n_gridpoints +
        (low_index D.n_gridpoints (grid_ptr D idx p_nuc) + 1)) := by
  refine ⟨fun h => ?_, fun h => ?_, ?_, ?_, rfl, ?_⟩
  · unfold low_index
    rw [if_pos h]
  · unfold low_index
    rw [if_neg h]
  · unfold low_index
    split_ifs <;> omega
  · unfold low_index
    split_ifs <;> omega
  · unfold high_point
    rw [add_assoc]

/-- Witness of C6 (amended): isotope 0 of the scenario (four samples) at row 6 of the
unionized grid, whose entry is the last column 3; `low` is column 2 and `high` column 3. -/
theorem low_index_in_row_witness :
    (2 : Int) ≤ scenario_data.n_gridpoints ∧ grid_ptr scenario_data 6 0 = 3 ∧
    low_index scenario_data.n_gridpoints (grid_ptr scenario_data 6 0) = 2 ∧
    0 ≤ low_index scenario_data.n_gridpoints (grid_ptr scenario_data 6 0) ∧
    low_index scenario_data.n_gridpoints (grid_ptr scenario_data 6 0) + 1 ≤
      scenario_data.n_gridpoints - 1 :=
  have h := low_index_in_row scenario_data 0 6 (by decide) (by decide) (by decide)
  ⟨by decide, by decide, by decide, h.2.2.1, h.2.2.2.1⟩

theorem clear_macro_xs_apply (v : Fin 5 → ℚ) (k : Fin 5) : clear_macro_xs v k = 0 := by
  have h5 : List.finRange 5 = [0, 1, 2, 3, 4] := by decide
  unfold clear_macro_xs
  rw [h5]
  fin_cases k <;> simp [Function.update]

theorem add_micro_xs_apply (v xs : Fin 5 → ℚ) (conc : ℚ) (k : Fin 5) :
    add_micro_xs v xs conc k = v k + xs k * conc := by
  have h5 : List.finRange 5 = [0, 1, 2, 3, 4] := by decide
  unfold add_micro_xs
  rw [h5]
  fin_cases k <;> simp [Function.update]

theorem nuclide_loop_apply (D : SimulationData) (p_energy : ℚ) (mat idx : Int) (k : Fin 5) :
    ∀ (n i : Nat) (v : Fin 5 → ℚ), (D.num_nucs mat - (i : Int)).toNat = n →
      nuclide_loop D p_energy mat idx (i : Int) v k =
        v k + ∑ j in Finset.Ico i (D.num_nucs mat).toNat,
          D.concs (D.mats_idx mat + (j : Int)) *
            calculate_micro_xs D p_energy (D.mats (D.mats_idx mat + (j : Int))) idx k := by
  intro n
  induction n with
  | zero =>
    intro i v h
    have hge : ¬ (i : Int) < D.num_nucs mat := by omega
    rw [nuclide_loop, if_neg hge, Finset.Ico_eq_empty (by omega), Finset.sum_empty, add_zero]
  | succ n ih =>
    intro i v h
    have hlt : (i : Int) < D.num_nucs mat := by omega
    have hlt2 : i < (D.num_nucs mat).toNat := by omega
    rw [nuclide_loop, if_pos hlt]
    have hcast : (i : Int) + 1 = ((i + 1 : Nat) : Int) := by push_cast; rfl
    rw [hcast, ih (i + 1) _ (by omega), add_micro_xs_apply,
      Finset.sum_eq_sum_Ico_succ_bot hlt2]
    ring

/-- C3. For every material, energy and prior content of `macro_xs_vector`, after the
inlined `calculate_macro_xs` each of the five channels is the sum over
`j = 0 .. num_nucs[mat] - 1` of `concs[mats_idx[mat] + j]` times that channel of the
interpolated micro vector of nuclide `mats[mats_idx[mat] + j]`; the prior content has no
influence, and a material without nuclides gives the zero vector. -/
theorem calculate_macro_xs_sum (grid_search : Int → ℚ → (Int → GridPoint) → Int)
    (D : SimulationData) (p_energy : ℚ) (mat : Int) (prior : Fin 5 → ℚ) :
    (∀ k : Fin 5, calculate_macro_xs grid_search D p_energy mat prior k =
      ∑ j in Finset.range (D.num_nucs mat).toNat,
        D.concs (D.mats_idx mat + (j : Int)) *
          calculate_micro_xs D p_energy (D.mats (D.mats_idx mat + (j : Int)))
            (grid_search (D.n_isotopes * D.n_gridpoints) p_energy D.energy_grid) k) ∧
    (∀ other : Fin 5 → ℚ, calculate_macro_xs grid_search D p_energy mat other =
      calculate_macro_xs grid_search D p_energy mat prior) ∧
    (D.num_nucs mat = 0 → ∀ k : Fin 5,
      calculate_macro_xs grid_search D p_energy mat prior k = 0) := by
  have hsum : ∀ (v : Fin 5 → ℚ) (k : Fin 5),
      calculate_macro_xs grid_search D p_energy mat v k =
      ∑ j in Finset.range (D.num_nucs mat).toNat,
        D.concs (D.mats_idx mat + (j : Int)) *
          calculate_micro_xs D p_energy (D.mats (D.mats_idx mat + (j : Int)))
            (grid_search (D.n_isotopes * D.n_gridpoints) p_energy D.energy_grid) k := by
    intro v k
    unfold calculate_macro_xs
    have h0 : (0 : Int) = ((0 : Nat) : Int) := rfl
    rw [h0, nuclide_loop_apply D p_energy mat _ k _ 0 _ rfl, clear_macro_xs_apply, zero_add,
      Finset.range_eq_Ico]
  refine ⟨hsum prior, ?_, ?_⟩
  · intro other
    funext k
    rw [hsum other, hsum prior]
  · intro hzero k
    rw [hsum prior, hzero]
    simp

/-- Witness of C3: material 1 of the scenario has no nuclide and its total channel is
zero whatever `macro_xs_vector` held before; material 0 has two nuclides and its total
channel is the two-term weighted sum, the same for two different prior contents. -/
theorem calculate_macro_xs_sum_witness :
    scenario_data.num_nucs 1 = 0 ∧
    calculate_macro_xs grid_search scenario_data (9 / 2) 1 (fun _ => 7) 0 = 0 ∧
    calculate_macro_xs grid_search scenario_data (9 / 2) 0 (fun _ => 7) 0 =
      ∑ j in Finset.range (scenario_data.num_nucs 0).toNat,
        scenario_data.concs (scenario_data.mats_idx 0 + (j : Int)) *
          calculate_micro_xs scenario_data (9 / 2)
            (scenario_data.mats (scenario_data.mats_idx 0 + (j : Int)))
            (grid_search (scenario_data.n_isotopes * scenario_data.n_gridpoints) (9 / 2)
              scenario_data.energy_grid) 0 ∧
    calculate_macro_xs grid_search scenario_data (9 / 2) 0 (fun _ => 1) =
      calculate_macro_xs grid_search scenario_data (9 / 2) 0 (fun _ => 7) :=
  ⟨by decide,
    (calculate_macro_xs_sum grid_search scenario_data (9 / 2) 1 (fun _ => 7)).2.2
      (by decide) 0,
    (calculate_macro_xs_sum grid_search scenario_data (9 / 2) 0 (fun _ => 7)).1 0,
    (calculate_macro_xs_sum grid_search scenario_data (9 / 2) 0 (fun _ => 7)).2.1
      (fun _ => 1)⟩

/-! ## Verification hash: the claim -/

theorem vhash_foldl (hashes : List Nat) :
    ∀ a : Nat, hashes.foldl vhash_add (a % 2 ^ 64) = (a + hashes.sum) % 2 ^ 64 := by
  induction hashes with
  | nil => intro a; simp
  | cons h t ih =>
    intro a
    have hstep : vhash_add (a % 2 ^ 64) h = (a % 2 ^ 64 + h) % 2 ^ 64 := rfl
    rw [List.foldl_cons, List.sum_cons, hstep, ih]
    omega

/-- C7. `vhash` starts at 0 and every trial adds its hash with wrap-around at `2 ^ 64`;
for every list of per-trial hashes and every permutation of it the final `vhash` is the
same, the sum of the hashes modulo `2 ^ 64`. -/
theorem vhash_order_independent (hashes permuted : List Nat) (h : hashes.Perm permuted) :
    vhash_run hashes = hashes.sum % 2 ^ 64 ∧ vhash_run permuted = vhash_run hashes := by
  have hrun : ∀ l : List Nat, vhash_run l = l.sum % 2 ^ 64 := by
    intro l
    have := vhash_foldl l 0
    rw [zero_add] at this
    exact this
  refine ⟨hrun hashes, ?_⟩
  rw [hrun, hrun, h.sum_eq]

/-- Witness of C7: three hashes, one of them `2 ^ 64 - 1` so that the sum wraps, added in
two different orders. -/
theorem vhash_order_independent_witness :
    [2 ^ 64 - 1, 5, 7].Perm [7, 2 ^ 64 - 1, 5] ∧
    vhash_run [2 ^ 64 - 1, 5, 7] = ([2 ^ 64 - 1, 5, 7] : List Nat).sum % 2 ^ 64 ∧
    vhash_run [7, 2 ^ 64 - 1, 5] = vhash_run [2 ^ 64 - 1, 5, 7] :=
  have hperm : [2 ^ 64 - 1, 5, 7].Perm [7, 2 ^ 64 - 1, 5] := by decide
  ⟨hperm, vhash_order_independent [2 ^ 64 - 1, 5, 7] [7, 2 ^ 64 - 1, 5] hperm⟩

end XSBench
